import Mathlib

/-! Filament material pipeline: binding points, program descriptor, material instance.

A shallow embedding of

* `libs/filabridge/include/private/filament/EngineEnums.h`
* `libs/filabridge/include/private/filament/UniformInterfaceBlock.h`
* `filament/backend/src/Program.cpp`
* `filament/src/details/MaterialInstance.h`

C++ objects are records, member functions are functions from the old object to
the new one, fixed-size arrays are lists, and the driver command stream is the
list of the commands issued so far.
-/

namespace filament

/-! ## EngineEnums.h -/

/-- Binding points for uniform buffers (`enum class UniformBindingPoints : uint8_t`). -/
inductive UniformBindingPoints
  | PER_VIEW
  | PER_RENDERABLE
  | PER_RENDERABLE_BONES
  | PER_RENDERABLE_MORPHING
  | LIGHTS
  | SHADOW
  | FROXEL_RECORDS
  | PER_MATERIAL_INSTANCE
  deriving DecidableEq, Repr

/-- The enumerator values of `UniformBindingPoints`; this is what unary `+` yields. -/
def UniformBindingPoints.toNat : UniformBindingPoints → Nat
  | .PER_VIEW => 0
  | .PER_RENDERABLE => 1
  | .PER_RENDERABLE_BONES => 2
  | .PER_RENDERABLE_MORPHING => 3
  | .LIGHTS => 4
  | .SHADOW => 5
  | .FROXEL_RECORDS => 6
  | .PER_MATERIAL_INSTANCE => 7

/-- Binding points for sampler buffers (`enum class SamplerBindingPoints : uint8_t`). -/
inductive SamplerBindingPoints
  | PER_VIEW
  | PER_RENDERABLE_MORPHING
  | PER_MATERIAL_INSTANCE
  deriving DecidableEq, Repr

/-- The enumerator values of `SamplerBindingPoints`; this is what unary `+` yields. -/
def SamplerBindingPoints.toNat : SamplerBindingPoints → Nat
  | .PER_VIEW => 0
  | .PER_RENDERABLE_MORPHING => 1
  | .PER_MATERIAL_INSTANCE => 2

/-- The specialisation `utils::Enum::count<filament::UniformBindingPoints>()`. -/
def countUniformBindingPoints : Nat := 8

/-- The specialisation `utils::Enum::count<filament::SamplerBindingPoints>()`. -/
def countSamplerBindingPoints : Nat := 3

/-- Modelled from the spec: the backend capacity `CONFIG_UNIFORM_BINDING_COUNT`, declared in
`backend/DriverEnums.h` (absent). `EngineEnums.h` statically asserts the enumeration count
against it and documents its value: "These are limited by CONFIG_BINDING_COUNT (currently 10)". -/
def CONFIG_UNIFORM_BINDING_COUNT : Nat := 10

/-- Modelled from the spec: the backend capacity `CONFIG_SAMPLER_BINDING_COUNT`, declared in
`backend/DriverEnums.h` (absent); `EngineEnums.h` documents it as "currently 4". -/
def CONFIG_SAMPLER_BINDING_COUNT : Nat := 4

/-! ## Assertions -/

/-- Modelled from the spec: the assertion `assert_invariant`, whose definition
(`utils/debug.h`) is absent. A violated invariant is "a fatal programmer error, checked eagerly": `some ()`
lets the run go on, `none` stops it at the assertion. -/
def assert_invariant (cond : Bool) : Option Unit :=
  if cond then some () else none

/-! ## Backend value types used by the material instance

These live in `backend/DriverEnums.h` and `backend/Handle.h`, which are absent; only the
members that `MaterialInstance.h` reads and writes are modelled. -/

/-- Modelled from the spec: a GPU handle, "absent/null until first commit".
`none` is the null handle, `some id` a handle the driver has allocated. -/
abbrev Handle := Option Nat

/-- The conversion `explicit operator bool()` of a handle: true when the handle is set. -/
def Handle.toBool (h : Handle) : Bool := h.isSome

/-- Modelled from the spec: the CPU-side uniform mirror (`UniformBuffer`, absent) with its
dirty flag; `isDirty()` reads the flag. -/
structure UniformBuffer where
  mBuffer : List Nat
  mSomethingDirty : Bool
  deriving DecidableEq, Repr

/-- The accessor `UniformBuffer::isDirty()`. -/
def UniformBuffer.isDirty (u : UniformBuffer) : Bool := u.mSomethingDirty

/-- Modelled from the spec: the CPU-side sampler mirror (`backend::SamplerGroup`, absent)
with its dirty flag; `isDirty()` reads the flag. -/
structure SamplerGroup where
  mBuffer : List Nat
  mDirty : Bool
  deriving DecidableEq, Repr

/-- The accessor `SamplerGroup::isDirty()`. -/
def SamplerGroup.isDirty (s : SamplerGroup) : Bool := s.mDirty

/-- An IEEE-754 binary32 value, held as its 32-bit pattern. -/
abbrev Float32 := Nat

/-- Unary minus on a binary32 value: the sign bit (bit 31) is flipped. -/
def Float32.neg (x : Float32) : Float32 := (x ^^^ 0x80000000) % 2 ^ 32

/-- The record `backend::PolygonOffset`: `{ float slope; float constant; }`. -/
structure PolygonOffset where
  slope : Float32
  constant : Float32
  deriving DecidableEq, Repr

/-- The enumeration `backend::CullingMode`. -/
inductive CullingMode
  | NONE
  | FRONT
  | BACK
  | FRONT_AND_BACK
  deriving DecidableEq, Repr

/-- The enumeration `backend::SamplerCompareFunc`, also used as `StencilCompareFunc` and
`RasterState::DepthFunc`. -/
inductive SamplerCompareFunc
  | LE
  | GE
  | L
  | G
  | E
  | NE
  | A
  | N
  deriving DecidableEq, Repr

abbrev StencilCompareFunc := SamplerCompareFunc

/-- The enumeration `backend::StencilOperation`. -/
inductive StencilOperation
  | KEEP
  | ZERO
  | REPLACE
  | INCR
  | INCR_WRAP
  | DECR
  | DECR_WRAP
  | INVERT
  deriving DecidableEq, Repr

/-- The bitmask `backend::StencilFace : uint8_t`, held as its integer value. -/
abbrev StencilFace := Nat

def StencilFace.FRONT : StencilFace := 0x1
def StencilFace.BACK : StencilFace := 0x2
def StencilFace.FRONT_AND_BACK : StencilFace := 0x3

/-- The test `any(face & StencilFace::FRONT)`. -/
def StencilFace.hasFront (face : StencilFace) : Bool := (face &&& StencilFace.FRONT) != 0

/-- The test `any(face & StencilFace::BACK)`. -/
def StencilFace.hasBack (face : StencilFace) : Bool := (face &&& StencilFace.BACK) != 0

/-- The per-face record `StencilState::StencilOperations`. -/
structure StencilOperations where
  stencilOpStencilFail : StencilOperation
  stencilOpDepthFail : StencilOperation
  stencilOpDepthStencilPass : StencilOperation
  stencilFunc : StencilCompareFunc
  ref : Nat
  readMask : Nat
  writeMask : Nat
  deriving DecidableEq, Repr

/-- The record `backend::StencilState`. -/
structure StencilState where
  front : StencilOperations
  back : StencilOperations
  stencilWrite : Bool
  deriving DecidableEq, Repr

/-- The enumeration `TransparencyMode`. -/
inductive TransparencyMode
  | DEFAULT
  | TWO_PASSES_ONE_SIDE
  | TWO_PASSES_TWO_SIDES
  deriving DecidableEq, Repr

/-- The record `backend::Viewport`: `int32_t left, bottom; uint32_t width, height`. -/
structure Viewport where
  left : Int
  bottom : Int
  width : Nat
  height : Nat
  deriving DecidableEq, Repr

/-- The constant `std::numeric_limits<int32_t>::max()`. -/
def INT32_MAX : Nat := 2147483647

/-! ## The driver command stream -/

/-- A command recorded on the driver API. Only the two bind calls are issued by code under
`MaterialInstance.h`; `other` stands for every command issued elsewhere. -/
inductive DriverCommand
  | bindUniformBuffer (index : Nat) (ubh : Handle)
  | bindSamplers (index : Nat) (sbh : Handle)
  | other (tag : Nat)
  deriving DecidableEq, Repr

/-- The driver API, seen as the sequence of commands issued so far. -/
abbrev DriverApi := List DriverCommand

/-! ## MaterialInstance.h -/

/-- The data members of `FMaterialInstance`. `mMaterial` is held as an address. -/
structure FMaterialInstance where
  mMaterial : Nat
  mUbHandle : Handle
  mSbHandle : Handle
  mUniforms : UniformBuffer
  mSamplers : SamplerGroup
  mPolygonOffset : PolygonOffset
  mCulling : CullingMode
  mColorWrite : Bool
  mDepthWrite : Bool
  mStencilState : StencilState
  mDepthFunc : SamplerCompareFunc
  mTransparencyMode : TransparencyMode
  mMaterialSortingKey : Nat
  mScissorRect : Viewport
  mName : String
  deriving DecidableEq, Repr

namespace FMaterialInstance

/-- What one call of `commit` leaves behind: the instance, the driver command stream, and
the number of times the body called `commitSlow`. -/
structure CommitOutcome where
  inst : FMaterialInstance
  driver : DriverApi
  slowCalls : Nat

/-- The member `commit(driver)`. `commitSlow` is only declared in the header, so it is a
parameter: any function of the instance and the driver. -/
def commit (commitSlow : FMaterialInstance → DriverApi → FMaterialInstance × DriverApi)
    (self : FMaterialInstance) (driver : DriverApi) : CommitOutcome :=
  if self.mUniforms.isDirty || self.mSamplers.isDirty then
    let r := commitSlow self driver
    { inst := r.1, driver := r.2, slowCalls := 1 }
  else
    { inst := self, driver := driver, slowCalls := 0 }

/-- The member `use(driver)`: the instance is returned next to the driver because the
method is `const` and assigns nothing. -/
def use (self : FMaterialInstance) (driver : DriverApi) : FMaterialInstance × DriverApi :=
  let driver1 :=
    if self.mUbHandle.toBool then
      driver ++ [DriverCommand.bindUniformBuffer
        UniformBindingPoints.PER_MATERIAL_INSTANCE.toNat self.mUbHandle]
    else driver
  let driver2 :=
    if self.mSbHandle.toBool then
      driver1 ++ [DriverCommand.bindSamplers
        SamplerBindingPoints.PER_MATERIAL_INSTANCE.toNat self.mSbHandle]
    else driver1
  (self, driver2)

end FMaterialInstance

/-! ### Fixed-function state -/

namespace FMaterialInstance

/-- The member `setScissor(left, bottom, width, height)`; `width` and `height` are
`uint32_t` and are stored as `std::min(_, (uint32_t) INT32_MAX)`. -/
def setScissor (self : FMaterialInstance) (left bottom : Int) (width height : Nat) :
    FMaterialInstance :=
  { self with mScissorRect :=
      { left := left, bottom := bottom,
        width := min width INT32_MAX, height := min height INT32_MAX } }

/-- The member `unsetScissor()`. -/
def unsetScissor (self : FMaterialInstance) : FMaterialInstance :=
  { self with mScissorRect :=
      { left := 0, bottom := 0, width := INT32_MAX, height := INT32_MAX } }

def getScissor (self : FMaterialInstance) : Viewport := self.mScissorRect

def getCullingMode (self : FMaterialInstance) : CullingMode := self.mCulling

def getColorWrite (self : FMaterialInstance) : Bool := self.mColorWrite

def getDepthWrite (self : FMaterialInstance) : Bool := self.mDepthWrite

def getStencilState (self : FMaterialInstance) : StencilState := self.mStencilState

/-- The member `setPolygonOffset(scale, constant)`: both values are stored negated
("handle reversed Z"). -/
def setPolygonOffset (self : FMaterialInstance) (scale constant : Float32) :
    FMaterialInstance :=
  { self with mPolygonOffset := { slope := Float32.neg scale, constant := Float32.neg constant } }

def getPolygonOffset (self : FMaterialInstance) : PolygonOffset := self.mPolygonOffset

def setCullingMode (self : FMaterialInstance) (culling : CullingMode) : FMaterialInstance :=
  { self with mCulling := culling }

def setColorWrite (self : FMaterialInstance) (enable : Bool) : FMaterialInstance :=
  { self with mColorWrite := enable }

def setDepthWrite (self : FMaterialInstance) (enable : Bool) : FMaterialInstance :=
  { self with mDepthWrite := enable }

def setStencilWrite (self : FMaterialInstance) (enable : Bool) : FMaterialInstance :=
  { self with mStencilState := { self.mStencilState with stencilWrite := enable } }

/-- The member `setStencilCompareFunction(func, face)`: two independent `if`s, the front
face first. -/
def setStencilCompareFunction (self : FMaterialInstance) (func : StencilCompareFunc)
    (face : StencilFace) : FMaterialInstance :=
  let s1 := if face.hasFront then
      { self.mStencilState with front := { self.mStencilState.front with stencilFunc := func } }
    else self.mStencilState
  let s2 := if face.hasBack then
      { s1 with back := { s1.back with stencilFunc := func } }
    else s1
  { self with mStencilState := s2 }

def setStencilOpStencilFail (self : FMaterialInstance) (op : StencilOperation)
    (face : StencilFace) : FMaterialInstance :=
  let s1 := if face.hasFront then
      { self.mStencilState with
          front := { self.mStencilState.front with stencilOpStencilFail := op } }
    else self.mStencilState
  let s2 := if face.hasBack then
      { s1 with back := { s1.back with stencilOpStencilFail := op } }
    else s1
  { self with mStencilState := s2 }

def setStencilOpDepthFail (self : FMaterialInstance) (op : StencilOperation)
    (face : StencilFace) : FMaterialInstance :=
  let s1 := if face.hasFront then
      { self.mStencilState with
          front := { self.mStencilState.front with stencilOpDepthFail := op } }
    else self.mStencilState
  let s2 := if face.hasBack then
      { s1 with back := { s1.back with stencilOpDepthFail := op } }
    else s1
  { self with mStencilState := s2 }

def setStencilOpDepthStencilPass (self : FMaterialInstance) (op : StencilOperation)
    (face : StencilFace) : FMaterialInstance :=
  let s1 := if face.hasFront then
      { self.mStencilState with
          front := { self.mStencilState.front with stencilOpDepthStencilPass := op } }
    else self.mStencilState
  let s2 := if face.hasBack then
      { s1 with back := { s1.back with stencilOpDepthStencilPass := op } }
    else s1
  { self with mStencilState := s2 }

/-- The member `setStencilReferenceValue(value, face)`; `value` is a `uint8_t`. -/
def setStencilReferenceValue (self : FMaterialInstance) (value : Nat)
    (face : StencilFace) : FMaterialInstance :=
  let s1 := if face.hasFront then
      { self.mStencilState with front := { self.mStencilState.front with ref := value } }
    else self.mStencilState
  let s2 := if face.hasBack then
      { s1 with back := { s1.back with ref := value } }
    else s1
  { self with mStencilState := s2 }

/-- The member `setStencilReadMask(readMask, face)`; `readMask` is a `uint8_t`. -/
def setStencilReadMask (self : FMaterialInstance) (readMask : Nat)
    (face : StencilFace) : FMaterialInstance :=
  let s1 := if face.hasFront then
      { self.mStencilState with front := { self.mStencilState.front with readMask := readMask } }
    else self.mStencilState
  let s2 := if face.hasBack then
      { s1 with back := { s1.back with readMask := readMask } }
    else s1
  { self with mStencilState := s2 }

/-- The member `setStencilWriteMask(writeMask, face)`; `writeMask` is a `uint8_t`. -/
def setStencilWriteMask (self : FMaterialInstance) (writeMask : Nat)
    (face : StencilFace) : FMaterialInstance :=
  let s1 := if face.hasFront then
      { self.mStencilState with
          front := { self.mStencilState.front with writeMask := writeMask } }
    else self.mStencilState
  let s2 := if face.hasBack then
      { s1 with back := { s1.back with writeMask := writeMask } }
    else s1
  { self with mStencilState := s2 }

end FMaterialInstance

/-- A concrete material instance as it stands after construction and before its first
commit: both handles null, both mirrors dirty, the member initialisers of the header for
the stencil state and the scissor rectangle. -/
def sampleInstance : FMaterialInstance :=
  { mMaterial := 0
    mUbHandle := none
    mSbHandle := none
    mUniforms := { mBuffer := [0, 0, 0, 0], mSomethingDirty := true }
    mSamplers := { mBuffer := [], mDirty := true }
    mPolygonOffset := { slope := 0, constant := 0 }
    mCulling := CullingMode.BACK
    mColorWrite := true
    mDepthWrite := true
    mStencilState :=
      { front := { stencilOpStencilFail := .KEEP, stencilOpDepthFail := .KEEP,
                   stencilOpDepthStencilPass := .KEEP, stencilFunc := .A,
                   ref := 0, readMask := 0xff, writeMask := 0xff }
        back := { stencilOpStencilFail := .KEEP, stencilOpDepthFail := .KEEP,
                  stencilOpDepthStencilPass := .KEEP, stencilFunc := .A,
                  ref := 0, readMask := 0xff, writeMask := 0xff }
        stencilWrite := false }
    mDepthFunc := SamplerCompareFunc.GE
    mTransparencyMode := TransparencyMode.DEFAULT
    mMaterialSortingKey := 0
    mScissorRect := { left := 0, bottom := 0, width := INT32_MAX, height := INT32_MAX }
    mName := "sample" }

/-- The same instance once committed: handles allocated, mirrors clean. -/
def committedInstance : FMaterialInstance :=
  { sampleInstance with
    mUbHandle := some 11
    mSbHandle := some 12
    mUniforms := { mBuffer := [0, 0, 0, 0], mSomethingDirty := false }
    mSamplers := { mBuffer := [], mDirty := false } }

/-- A stand-in for the slow path used to exercise `commit`: it uploads (one driver command)
and cleans both mirrors. -/
def sampleCommitSlow (self : FMaterialInstance) (driver : DriverApi) :
    FMaterialInstance × DriverApi :=
  ({ self with
      mUbHandle := some 11
      mSbHandle := some 12
      mUniforms := { self.mUniforms with mSomethingDirty := false }
      mSamplers := { self.mSamplers with mDirty := false } },
   driver ++ [DriverCommand.other 0])

/-! ## Program.cpp

`backend/Program.h` is absent. The members assigned by `Program.cpp` give the shape of the
object; its three `std::array` members are lists, and their sizes (`UNIFORM_BINDING_COUNT`,
`SAMPLER_BINDING_COUNT`, `SHADER_TYPE_COUNT`) are the lengths of those lists. -/

/-- The enumeration `backend::ShaderType`, the index into `mShadersSource`. -/
inductive ShaderType
  | VERTEX
  | FRAGMENT
  | COMPUTE
  deriving DecidableEq, Repr

/-- The conversion `size_t(shader)`. -/
def ShaderType.toNat : ShaderType → Nat
  | .VERTEX => 0
  | .FRAGMENT => 1
  | .COMPUTE => 2

/-- The number of pipeline stages, the size of `mShadersSource`. -/
def SHADER_TYPE_COUNT : Nat := 3

/-- The enumeration `backend::Precision`. -/
inductive Precision
  | LOW
  | MEDIUM
  | HIGH
  | DEFAULT
  deriving DecidableEq, Repr

/-- The enumeration `backend::SamplerType`. -/
inductive SamplerType
  | SAMPLER_2D
  | SAMPLER_2D_ARRAY
  | SAMPLER_CUBEMAP
  | SAMPLER_EXTERNAL
  | SAMPLER_3D
  deriving DecidableEq, Repr

/-- A shader blob: a sequence of bytes. -/
abbrev ShaderBlob := List Nat

/-- The bitmask `backend::ShaderStageFlags : uint8_t`, held as its integer value. -/
abbrev ShaderStageFlags := Nat

/-- The algorithm `std::copy_n(src, n, dst)` on sequences: element by element, the first `n`
elements of `dst` are overwritten by the first `n` elements of `src`. The destination keeps
its size; copying stops where the source or the destination ends (the source leaves a
longer copy undefined). -/
def copy_n {α : Type} : List α → Nat → List α → List α
  | s :: src, n + 1, _ :: dst => s :: copy_n src n dst
  | _, _, dst => dst

/-- The member `resize(n)` of a vector: truncate to `n` elements, or pad with
value-initialised elements up to `n`. -/
def resize {α : Type} (v : List α) (n : Nat) (dflt : α) : List α :=
  v.take n ++ List.replicate (n - v.length) dflt

namespace Program

/-- Modelled from the spec: `Program::Sampler`, one sampler descriptor "(name, type,
precision, binding-point-relative index)"; the record is declared in `Program.h`. -/
structure Sampler where
  name : String
  type : SamplerType
  precision : Precision
  binding : Nat
  deriving DecidableEq, Repr

/-- The value-initialised sampler descriptor that `resize` pads with. -/
def Sampler.dflt : Sampler :=
  { name := "", type := SamplerType.SAMPLER_2D, precision := Precision.LOW, binding := 0 }

/-- One element of `mSamplerGroups`: the members `stageFlags` and `samplers` that
`setSamplerGroup` assigns. -/
structure SamplerGroupInfo where
  stageFlags : ShaderStageFlags
  samplers : List Sampler
  deriving DecidableEq, Repr

end Program

/-- The data members of `backend::Program` (the ones `operator=` moves). The logger is a
function on the text written so far. -/
structure Program where
  mUniformBlocks : List String
  mSamplerGroups : List Program.SamplerGroupInfo
  mShadersSource : List ShaderBlob
  mName : String
  mLogger : String → String

namespace Program

/-- The member `diagnostics(name, logger)`. -/
def diagnostics (self : Program) (name : String) (logger : String → String) : Program :=
  { self with mName := name, mLogger := logger }

/-- The member `shader(shader, data, size)`: a blob of `size` bytes is allocated, the first
`size` bytes of `data` are copied into it, and it is moved into slot `size_t(shader)`. -/
def shader (self : Program) (shader : ShaderType) (data : List Nat) (size : Nat) : Program :=
  let blob : ShaderBlob := List.replicate size 0
  let blob := copy_n data size blob
  { self with mShadersSource := self.mShadersSource.set shader.toNat blob }

/-- The member `uniformBlockBindings(list)`. Each item is a pair of a block name and a
`uint8_t` binding point; the capacity `UNIFORM_BINDING_COUNT` is declared in the absent
`Program.h` and is a parameter. When the assertion stops the run the result is
`Except.error`, carrying the object as it stands at that moment. -/
def uniformBlockBindings (UNIFORM_BINDING_COUNT : Nat) (self : Program) :
    List (String × Nat) → Except Program Program
  | [] => Except.ok self
  | item :: rest =>
    match assert_invariant (decide (item.2 < UNIFORM_BINDING_COUNT)) with
    | none => Except.error self
    | some _ =>
      uniformBlockBindings UNIFORM_BINDING_COUNT
        { self with mUniformBlocks := self.mUniformBlocks.set item.2 item.1 } rest

/-- The member `setSamplerGroup(bindingPoint, stageFlags, samplers, count)`. The source
indexes `mSamplerGroups` without a check; an index outside the array is undefined there and
leaves the object as it is here. -/
def setSamplerGroup (self : Program) (bindingPoint : Nat) (stageFlags : ShaderStageFlags)
    (samplers : List Sampler) (count : Nat) : Program :=
  match self.mSamplerGroups[bindingPoint]? with
  | none => self
  | some groupData =>
    let samplerList := resize groupData.samplers count Sampler.dflt
    let samplerList := copy_n samplers count samplerList
    let groupData : SamplerGroupInfo := { stageFlags := stageFlags, samplers := samplerList }
    { self with mSamplerGroups := self.mSamplerGroups.set bindingPoint groupData }

/-- The loop body of `uniformBlockBindings` without its assertion, run over a whole list. -/
def storeBindings (self : Program) (items : List (String × Nat)) : Program :=
  items.foldl (fun p item => { p with mUniformBlocks := p.mUniformBlocks.set item.2 item.1 })
    self

end Program

/-- A default-constructed program whose uniform-block array has `n` slots. -/
def emptyProgram (n : Nat) : Program :=
  { mUniformBlocks := List.replicate n ""
    mSamplerGroups := List.replicate CONFIG_SAMPLER_BINDING_COUNT
      { stageFlags := 0, samplers := [] }
    mShadersSource := List.replicate SHADER_TYPE_COUNT []
    mName := ""
    mLogger := fun out => out }

/-- Three sampler descriptors and a program that already holds them at binding point 2. -/
def samplerA : Program.Sampler :=
  { name := "albedo", type := SamplerType.SAMPLER_2D, precision := Precision.MEDIUM, binding := 0 }

def samplerB : Program.Sampler :=
  { name := "normal", type := SamplerType.SAMPLER_2D, precision := Precision.HIGH, binding := 1 }

def samplerC : Program.Sampler :=
  { name := "env", type := SamplerType.SAMPLER_CUBEMAP, precision := Precision.LOW, binding := 2 }

def programWithSamplers : Program :=
  (emptyProgram 8).setSamplerGroup 2 1 [samplerA, samplerB, samplerC] 3

/-! ## UniformInterfaceBlock.h

The header declares the records and `UniformInfo::getBufferOffset`; the builder, the layout
pass and the two tables are defined in `UniformInterfaceBlock.cpp`, which is absent. -/

/-- The enumeration `backend::UniformType`. -/
inductive UniformType
  | BOOL
  | BOOL2
  | BOOL3
  | BOOL4
  | FLOAT
  | FLOAT2
  | FLOAT3
  | FLOAT4
  | INT
  | INT2
  | INT3
  | INT4
  | UINT
  | UINT2
  | UINT3
  | UINT4
  | MAT3
  | MAT4
  | STRUCT
  deriving DecidableEq, Repr

namespace UniformInterfaceBlock

/-- The record `UniformBlockEntry`; `size` and `stride` are `uint32_t`. -/
structure UniformBlockEntry where
  name : String
  size : Nat
  type : UniformType
  precision : Precision
  structName : String
  stride : Nat
  deriving DecidableEq, Repr

/-- The record `UniformInfo`: `offset` is a `uint16_t` and `stride` a `uint8_t`, both counted
in 4-byte words; `size` is a `uint32_t`, the array length, or 0 if not an array. -/
structure UniformInfo where
  name : String
  offset : Nat
  stride : Nat
  type : UniformType
  size : Nat
  precision : Precision
  structName : String
  deriving DecidableEq, Repr

/-- The members of a `UniformInfo` are within the ranges of their C++ types. -/
def UniformInfo.InRange (self : UniformInfo) : Prop :=
  self.offset < 2 ^ 16 ∧ self.stride < 2 ^ 8 ∧ self.size < 2 ^ 32

/-- The member `UniformInfo::getBufferOffset(index)`. The arithmetic is done in `size_t`
(64 bits); `none` is the failure of `assert_invariant(index < std::max(1u, size))`. -/
def UniformInfo.getBufferOffset (self : UniformInfo) (index : Nat) : Option Nat :=
  match assert_invariant (decide (index < max 1 self.size)) with
  | none => none
  | some _ => some (((self.offset + (self.stride * index) % 2 ^ 64) % 2 ^ 64 * 4) % 2 ^ 64)

/-- The builder's members: the block name and the entries submitted so far. -/
structure Builder where
  mName : String
  mEntries : List UniformInfo
  deriving DecidableEq, Repr

end UniformInterfaceBlock

/-- The members of `UniformInterfaceBlock`; `mInfoMap` is held as an association list, the
most recent assignment first; `mSize` is in bytes. -/
structure UniformInterfaceBlock where
  mName : String
  mUniformsInfoList : List UniformInterfaceBlock.UniformInfo
  mInfoMap : List (String × Nat)
  mSize : Nat
  deriving DecidableEq, Repr

namespace UniformInterfaceBlock

/-- Modelled from the spec: `baseAlignmentForType`, declared in the header and defined in
the absent `UniformInterfaceBlock.cpp`. "A scalar aligns to 1 word", "a 3- or 4-component
vector aligns to a 4-word boundary", "a matrix is treated as an array of column vectors each
aligned like a 4-word vector"; a 2-component vector aligns to 2 words and a struct to 4, as
in "the common 4-byte-word/16-byte-vector standard". -/
def baseAlignmentForType : UniformType → Nat
  | .BOOL | .FLOAT | .INT | .UINT => 1
  | .BOOL2 | .FLOAT2 | .INT2 | .UINT2 => 2
  | .BOOL3 | .FLOAT3 | .INT3 | .UINT3 => 4
  | .BOOL4 | .FLOAT4 | .INT4 | .UINT4 => 4
  | .MAT3 | .MAT4 => 4
  | .STRUCT => 4

/-- Modelled from the spec: the "fixed element width (in 4-byte words)" of a type. A vector
of n components is n words wide, a matrix is 3 or 4 columns "each aligned like a 4-word
vector"; for a struct "the caller supplies the already-computed per-element stride", the
second argument. -/
def elementWidth : UniformType → Nat → Nat
  | .BOOL, _ | .FLOAT, _ | .INT, _ | .UINT, _ => 1
  | .BOOL2, _ | .FLOAT2, _ | .INT2, _ | .UINT2, _ => 2
  | .BOOL3, _ | .FLOAT3, _ | .INT3, _ | .UINT3, _ => 3
  | .BOOL4, _ | .FLOAT4, _ | .INT4, _ | .UINT4, _ => 4
  | .MAT3, _ => 12
  | .MAT4, _ => 16
  | .STRUCT, stride => stride

/-- Modelled from the spec: `strideForType`, declared in the header and defined in the
absent `UniformInterfaceBlock.cpp`: the element width, as the `uint8_t` the header makes it
return. -/
def strideForType (type : UniformType) (stride : Nat) : Nat :=
  elementWidth type stride % 2 ^ 8

/-- Rounding up to the next multiple of 4 words, `(n + 3) & ~3`. -/
def roundUp4 (n : Nat) : Nat := (n + 3) / 4 * 4

/-- Modelled from the spec: the alignment a field is placed at. An array (length above 1)
follows "the same standard's array rules": its alignment is rounded up to 4 words. -/
def fieldAlignment (type : UniformType) (size : Nat) : Nat :=
  if size > 1 then roundUp4 (baseAlignmentForType type) else baseAlignmentForType type

/-- Modelled from the spec: "the running write cursor is advanced to the next multiple of the
field's required base alignment before the field is placed"; the value before reduction to
16 bits. -/
def placeAt (offset : Nat) (type : UniformType) (size : Nat) : Nat :=
  offset + (fieldAlignment type size - offset % fieldAlignment type size)
    % fieldAlignment type size

/-- Modelled from the spec: the stride between the elements of an array field. "Every
element - regardless of its natural width - is padded up to the next 4-word boundary as
its effective stride". The value is a `uint8_t`. -/
def arrayStride (e : UniformInfo) : Nat :=
  roundUp4 (strideForType e.type e.stride) % 2 ^ 8

/-- Modelled from the spec: the stride recorded for a field: the padded stride "for array
fields (array length > 1)", and "0 for non-arrays". -/
def fieldStride (e : UniformInfo) : Nat :=
  if e.size > 1 then arrayStride e else 0

/-- Modelled from the spec: the words by which the cursor moves past a placed field: all
elements of an array at its stride, the element width of a non-array. -/
def fieldWords (e : UniformInfo) : Nat :=
  if e.size > 1 then arrayStride e * e.size else strideForType e.type e.stride

/-- Modelled from the spec: the layout pass of the constructor
`UniformInterfaceBlock(Builder const&)` (defined in the absent `UniformInterfaceBlock.cpp`),
"applied in declaration order". "The field's resolved offset is the cursor value", so the
cursor has the type of `UniformInfo::offset`, `uint16_t`, and is reduced modulo 2^16.
Returns the info records and the final cursor. -/
def layout : Nat → List UniformInfo → List UniformInfo × Nat
  | offset, [] => ([], offset)
  | offset, e :: es =>
    let offset1 := placeAt offset e.type e.size % 2 ^ 16
    let info : UniformInfo := { e with offset := offset1, stride := fieldStride e }
    let r := layout ((offset1 + fieldWords e) % 2 ^ 16) es
    (info :: r.1, r.2)

/-- Modelled from the spec: the name index built by the constructor, `infoMap[name] = i` for
the i-th record. -/
def buildInfoMap : Nat → List UniformInfo → List (String × Nat)
  | _, [] => []
  | i, info :: rest => buildInfoMap (i + 1) rest ++ [(info.name, i)]

/-- Modelled from the spec: how `Builder::add` stores one descriptor. `mEntries` holds
`UniformInfo` records, so the descriptor is stored as one, its offset not yet computed and
its `uint32_t` stride narrowed to the `uint8_t` member. -/
def UniformBlockEntry.toInfo (item : UniformBlockEntry) : UniformInfo :=
  { name := item.name, offset := 0, stride := item.stride % 2 ^ 8, type := item.type,
    size := item.size, precision := item.precision, structName := item.structName }

/-! ### What a descriptor asks for

The next definitions read the descriptor the caller submitted, not the records the layout
pass produces. -/

/-- The distance in words between successive elements of the field a descriptor declares:
the element width, padded to a multiple of 4 words for an array. -/
def UniformBlockEntry.elementStride (d : UniformBlockEntry) : Nat :=
  if d.size > 1 then roundUp4 (elementWidth d.type d.stride) else elementWidth d.type d.stride

/-- The words the field a descriptor declares occupies: `max(1, size)` elements at its
element stride. It contains the words `stride * (size - 1) + elementWidth` of the spec's
invariant. -/
def UniformBlockEntry.extent (d : UniformBlockEntry) : Nat :=
  d.elementStride * max 1 d.size

/-- The fields fit the members that hold their layout: every element stride is below 2^8
(the `uint8_t` stride) and, placing the fields one after the other from `offset`, the
cursor stays below 2^16 (the `uint16_t` offset). -/
def fitsLayout : Nat → List UniformBlockEntry → Bool
  | _, [] => true
  | offset, d :: ds =>
    decide (d.elementStride < 2 ^ 8) &&
    decide (placeAt offset d.type d.size + d.extent < 2 ^ 16) &&
    fitsLayout (placeAt offset d.type d.size + d.extent) ds

/-- Two placed fields, each a descriptor with the record the layout gave it, overlap when
some word lies in both `[offset, offset + extent)`. -/
def placedOverlap (p q : UniformBlockEntry × UniformInfo) : Prop :=
  max p.2.offset q.2.offset < min (p.2.offset + p.1.extent) (q.2.offset + q.1.extent)

instance (p q : UniformBlockEntry × UniformInfo) : Decidable (placedOverlap p q) := by
  unfold placedOverlap; infer_instance

namespace Builder

/-- The constructor `Builder()`. -/
def new : Builder := { mName := "", mEntries := [] }

/-- The member `Builder::name(interfaceBlockName)`. -/
def name (self : Builder) (interfaceBlockName : String) : Builder :=
  { self with mName := interfaceBlockName }

/-- Modelled from the spec: `Builder::add(list)` (defined in the absent
`UniformInterfaceBlock.cpp`) "appends descriptors", each stored as a `UniformInfo`. -/
def add (self : Builder) (list : List UniformBlockEntry) : Builder :=
  { self with mEntries := self.mEntries ++ list.map UniformBlockEntry.toInfo }

/-- Modelled from the spec: `Builder::build()` (defined in the absent
`UniformInterfaceBlock.cpp`) "performs the one-time layout pass and returns a frozen
block"; "after all fields are placed, the total size is rounded up to a 4-word (16-byte)
boundary". `mSize` is that size in bytes. -/
def build (self : Builder) : UniformInterfaceBlock :=
  let r := layout 0 self.mEntries
  { mName := self.mName
    mUniformsInfoList := r.1
    mInfoMap := buildInfoMap 0 r.1
    mSize := 4 * roundUp4 r.2 }

end Builder

end UniformInterfaceBlock

/-- The field list of the spec's worked example: a `vec3`, a `float`, a `vec4`. -/
def exampleFields : List UniformInterfaceBlock.UniformBlockEntry :=
  [ { name := "a", size := 0, type := UniformType.FLOAT3, precision := Precision.DEFAULT,
      structName := "", stride := 0 },
    { name := "b", size := 0, type := UniformType.FLOAT, precision := Precision.DEFAULT,
      structName := "", stride := 0 },
    { name := "c", size := 0, type := UniformType.FLOAT4, precision := Precision.DEFAULT,
      structName := "", stride := 0 } ]

/-- A field list with a scalar, a 2-component vector, an array of scalars, a matrix, an
array of structs of 6 words, and a 3-component vector. -/
def mixedFields : List UniformInterfaceBlock.UniformBlockEntry :=
  [ { name := "x", size := 0, type := UniformType.FLOAT, precision := Precision.DEFAULT,
      structName := "", stride := 0 },
    { name := "y", size := 0, type := UniformType.FLOAT2, precision := Precision.DEFAULT,
      structName := "", stride := 0 },
    { name := "arr", size := 3, type := UniformType.FLOAT, precision := Precision.DEFAULT,
      structName := "", stride := 0 },
    { name := "m", size := 0, type := UniformType.MAT3, precision := Precision.DEFAULT,
      structName := "", stride := 0 },
    { name := "s", size := 2, type := UniformType.STRUCT, precision := Precision.DEFAULT,
      structName := "S", stride := 6 },
    { name := "z", size := 0, type := UniformType.INT3, precision := Precision.DEFAULT,
      structName := "", stride := 0 } ]

/-- An array of 16384 `vec4`: 65536 words, as many as a 16-bit offset can address. -/
def bigArrayField : UniformInterfaceBlock.UniformBlockEntry :=
  { name := "big", size := 16384, type := UniformType.FLOAT4,
    precision := Precision.DEFAULT, structName := "", stride := 0 }

/-- A field list whose first field alone fills the 65536 words a 16-bit offset can
address: the array of 16384 `vec4`, followed by one `float`. -/
def oversizedFields : List UniformInterfaceBlock.UniformBlockEntry :=
  [ bigArrayField,
    { name := "tail", size := 0, type := UniformType.FLOAT, precision := Precision.DEFAULT,
      structName := "", stride := 0 } ]

/-- A struct of 256 words, one more than a `uint8_t` stride can hold, followed by a
`float`. -/
def wideStructFields : List UniformInterfaceBlock.UniformBlockEntry :=
  [ { name := "wide", size := 0, type := UniformType.STRUCT, precision := Precision.DEFAULT,
      structName := "Wide", stride := 256 },
    { name := "tail", size := 0, type := UniformType.FLOAT, precision := Precision.DEFAULT,
      structName := "", stride := 0 } ]

/-- A builder after a sequence of `add` calls on a fresh `Builder()`. -/
def UniformInterfaceBlock.Builder.addAll
    (lists : List (List UniformInterfaceBlock.UniformBlockEntry)) :
    UniformInterfaceBlock.Builder :=
  lists.foldl UniformInterfaceBlock.Builder.add UniformInterfaceBlock.Builder.new

/-! ## Predicates used to state the frame conditions of the setters -/

/-- The effect of a face-masked stencil setter on one per-face member, read by `get` and
written by `put`: on each face the member becomes `v` when the mask contains the face and
keeps its value otherwise; putting the old value back gives the old per-face record, so no
other per-face member differs; `stencilWrite` and everything outside the stencil state are
as before. -/
def FaceMaskedUpdate {α : Type} (get : StencilOperations → α)
    (put : StencilOperations → α → StencilOperations) (v : α) (face : StencilFace)
    (old new : FMaterialInstance) : Prop :=
  get new.mStencilState.front = (if face.hasFront then v else get old.mStencilState.front) ∧
  get new.mStencilState.back = (if face.hasBack then v else get old.mStencilState.back) ∧
  put new.mStencilState.front (get old.mStencilState.front) = old.mStencilState.front ∧
  put new.mStencilState.back (get old.mStencilState.back) = old.mStencilState.back ∧
  new.mStencilState.stencilWrite = old.mStencilState.stencilWrite ∧
  { new with mStencilState := old.mStencilState } = old

/-- The setter that took `old` to `new` left the uniform mirror, the sampler mirror (with
their dirty flags) and both GPU handles as they were, and a following `commit` calls
`commitSlow` as often as it would have before. -/
def LeavesBuffersAlone (old new : FMaterialInstance) : Prop :=
  new.mUniforms = old.mUniforms ∧
  new.mSamplers = old.mSamplers ∧
  new.mUbHandle = old.mUbHandle ∧
  new.mSbHandle = old.mSbHandle ∧
  new.mUniforms.isDirty = old.mUniforms.isDirty ∧
  new.mSamplers.isDirty = old.mSamplers.isDirty ∧
  ∀ (commitSlow : FMaterialInstance → DriverApi → FMaterialInstance × DriverApi)
    (driver : DriverApi),
    (new.commit commitSlow driver).slowCalls = (old.commit commitSlow driver).slowCalls

/-! ## Scissor sequences -/

/-- The member initialiser of `mScissorRect` in the header: left 0, bottom 0, width and
height `(uint32_t) INT32_MAX`. -/
def initialScissorRect : Viewport :=
  { left := 0, bottom := 0, width := INT32_MAX, height := INT32_MAX }

/-- A sequence of `setScissor` calls, each given as `(left, bottom, width, height)`, applied
in order. -/
def FMaterialInstance.setScissorAll (self : FMaterialInstance)
    (calls : List (Int × Int × Nat × Nat)) : FMaterialInstance :=
  calls.foldl (fun inst c => inst.setScissor c.1 c.2.1 c.2.2.1 c.2.2.2) self

/-! ## Theorems -/

/-! ### `commit` and `use` -/

/-- C1: `commit` takes the slow path exactly when a mirror is dirty. With both mirrors clean
the instance and the driver command stream come back unchanged and `commitSlow` is not
called; with `uniformDirty` or `samplerDirty` set, `commitSlow` is called exactly once and
its result is the result of `commit`. -/
theorem commit_slow_iff_dirty
    (commitSlow : FMaterialInstance → DriverApi → FMaterialInstance × DriverApi)
    (self : FMaterialInstance) (driver : DriverApi) :
    ((self.mUniforms.isDirty = false ∧ self.mSamplers.isDirty = false) →
        (self.commit commitSlow driver).inst = self ∧
        (self.commit commitSlow driver).driver = driver ∧
        (self.commit commitSlow driver).slowCalls = 0) ∧
    ((self.mUniforms.isDirty = true ∨ self.mSamplers.isDirty = true) →
        (self.commit commitSlow driver).inst = (commitSlow self driver).1 ∧
        (self.commit commitSlow driver).driver = (commitSlow self driver).2 ∧
        (self.commit commitSlow driver).slowCalls = 1) ∧
    ((self.commit commitSlow driver).slowCalls = 1 ↔
        (self.mUniforms.isDirty = true ∨ self.mSamplers.isDirty = true)) ∧
    (self.commit commitSlow driver).slowCalls ≤ 1 := by
  unfold FMaterialInstance.commit
  cases hu : self.mUniforms.isDirty <;> cases hs : self.mSamplers.isDirty <;> simp

/-- C2: `use` appends to the driver command stream a `bindUniformBuffer` to binding point 7
with the instance's own handle exactly when the uniform buffer handle is set, then a
`bindSamplers` to binding point 2 with the instance's own handle exactly when the sampler
group handle is set, and nothing else; with both handles unset the command stream is
unchanged; the instance is never changed. -/
theorem use_binds_iff_handle_set (self : FMaterialInstance) (driver : DriverApi) :
    (self.use driver).2 =
        driver
          ++ (if self.mUbHandle.isSome then
                [DriverCommand.bindUniformBuffer 7 self.mUbHandle] else [])
          ++ (if self.mSbHandle.isSome then
                [DriverCommand.bindSamplers 2 self.mSbHandle] else []) ∧
    (∀ i h, DriverCommand.bindUniformBuffer i h ∈ (self.use []).2 ↔
        (self.mUbHandle.isSome = true ∧ i = 7 ∧ h = self.mUbHandle)) ∧
    (∀ i h, DriverCommand.bindSamplers i h ∈ (self.use []).2 ↔
        (self.mSbHandle.isSome = true ∧ i = 2 ∧ h = self.mSbHandle)) ∧
    (∀ t, DriverCommand.other t ∉ (self.use []).2) ∧
    ((self.mUbHandle = none ∧ self.mSbHandle = none) → (self.use driver).2 = driver) ∧
    (self.use driver).1 = self := by
  unfold FMaterialInstance.use Handle.toBool
  simp only [UniformBindingPoints.toNat, SamplerBindingPoints.toNat]
  cases hu : self.mUbHandle <;> cases hs : self.mSbHandle <;> simp

/-! ### `Program::uniformBlockBindings` -/

namespace Program

theorem uniformBlockBindings_nil (cap : Nat) (self : Program) :
    uniformBlockBindings cap self [] = Except.ok self := rfl

/-- One turn of the loop of `uniformBlockBindings`. -/
theorem uniformBlockBindings_cons (cap : Nat) (self : Program) (item : String × Nat)
    (rest : List (String × Nat)) :
    uniformBlockBindings cap self (item :: rest) =
      if item.2 < cap then
        uniformBlockBindings cap
          { self with mUniformBlocks := self.mUniformBlocks.set item.2 item.1 } rest
      else Except.error self := by
  by_cases h : item.2 < cap <;> simp [uniformBlockBindings, assert_invariant, h]

theorem storeBindings_nil (self : Program) : storeBindings self [] = self := rfl

theorem storeBindings_cons (self : Program) (item : String × Nat) (rest : List (String × Nat)) :
    storeBindings self (item :: rest) =
      storeBindings { self with mUniformBlocks := self.mUniformBlocks.set item.2 item.1 } rest :=
  rfl

theorem storeBindings_append (self : Program) (xs ys : List (String × Nat)) :
    storeBindings self (xs ++ ys) = storeBindings (storeBindings self xs) ys := by
  simp [storeBindings, List.foldl_append]

/-- Storing bindings touches `mUniformBlocks` only. -/
theorem storeBindings_frame (self : Program) (items : List (String × Nat)) :
    (storeBindings self items).mSamplerGroups = self.mSamplerGroups ∧
    (storeBindings self items).mShadersSource = self.mShadersSource ∧
    (storeBindings self items).mName = self.mName ∧
    (storeBindings self items).mLogger = self.mLogger ∧
    (storeBindings self items).mUniformBlocks.length = self.mUniformBlocks.length := by
  induction items generalizing self with
  | nil => simp [storeBindings_nil]
  | cons item rest ih =>
    rw [storeBindings_cons]
    have h := ih { self with mUniformBlocks := self.mUniformBlocks.set item.2 item.1 }
    simpa using h

/-- A slot that no item names keeps its content. -/
theorem storeBindings_untouched (self : Program) (items : List (String × Nat)) (slot : Nat)
    (h : ∀ e ∈ items, e.2 ≠ slot) :
    (storeBindings self items).mUniformBlocks[slot]? = self.mUniformBlocks[slot]? := by
  induction items generalizing self with
  | nil => simp [storeBindings_nil]
  | cons item rest ih =>
    rw [storeBindings_cons, ih _ (fun e he => h e (List.mem_cons_of_mem _ he))]
    have hne : item.2 ≠ slot := h item (List.mem_cons_self _ _)
    simp [List.getElem?_set_ne hne]

/-- When every binding point is below the capacity, the assertion never fires and the call
amounts to storing every item in turn. -/
theorem uniformBlockBindings_ok (cap : Nat) (self : Program) (items : List (String × Nat))
    (h : ∀ e ∈ items, e.2 < cap) :
    uniformBlockBindings cap self items = Except.ok (storeBindings self items) := by
  induction items generalizing self with
  | nil => rfl
  | cons item rest ih =>
    have hi : item.2 < cap := h item (List.mem_cons_self _ _)
    rw [uniformBlockBindings_cons, if_pos hi, storeBindings_cons]
    exact ih _ (fun e he => h e (List.mem_cons_of_mem _ he))

/-- When the assertion fires, it fires on the first item at or above the capacity, after
the items before it have been stored and before that item is. -/
theorem uniformBlockBindings_error (cap : Nat) (self s : Program)
    (items : List (String × Nat))
    (h : uniformBlockBindings cap self items = Except.error s) :
    ∃ pre bad post, items = pre ++ bad :: post ∧ (∀ e ∈ pre, e.2 < cap) ∧
      ¬ bad.2 < cap ∧ s = storeBindings self pre := by
  induction items generalizing self with
  | nil => simp [uniformBlockBindings_nil] at h
  | cons item rest ih =>
    rw [uniformBlockBindings_cons] at h
    by_cases hi : item.2 < cap
    · rw [if_pos hi] at h
      obtain ⟨pre, bad, post, hsplit, hpre, hbad, hs⟩ := ih _ h
      refine ⟨item :: pre, bad, post, by simp [hsplit], ?_, hbad, ?_⟩
      · intro e he
        rcases List.mem_cons.mp he with rfl | he
        · exact hi
        · exact hpre e he
      · rw [storeBindings_cons]; exact hs
    · rw [if_neg hi] at h
      refine ⟨[], item, rest, rfl, by simp, hi, ?_⟩
      injection h with h
      exact h.symm

/-- An item at or above the capacity makes the call fail. -/
theorem uniformBlockBindings_fails (cap : Nat) (self : Program) (items : List (String × Nat))
    (h : ∃ e ∈ items, ¬ e.2 < cap) :
    ∃ s, uniformBlockBindings cap self items = Except.error s := by
  induction items generalizing self with
  | nil => simp at h
  | cons item rest ih =>
    rw [uniformBlockBindings_cons]
    by_cases hi : item.2 < cap
    · rw [if_pos hi]
      apply ih
      obtain ⟨e, he, hbad⟩ := h
      rcases List.mem_cons.mp he with rfl | he
      · exact absurd hi hbad
      · exact ⟨e, he, hbad⟩
    · rw [if_neg hi]; exact ⟨self, rfl⟩

end Program

/-- The last item naming a binding point decides what the slot holds. -/
theorem Program.storeBindings_last_wins (self : Program) (pre post : List (String × Nat))
    (e : String × Nat) (hlt : e.2 < self.mUniformBlocks.length)
    (hpost : ∀ x ∈ post, x.2 ≠ e.2) :
    (Program.storeBindings self (pre ++ e :: post)).mUniformBlocks[e.2]? = some e.1 := by
  rw [Program.storeBindings_append, Program.storeBindings_cons,
    Program.storeBindings_untouched _ post e.2 hpost]
  have hlen := (Program.storeBindings_frame self pre).2.2.2.2
  simp [List.getElem?_set_self (hlen ▸ hlt)]

/-- C3: `uniformBlockBindings` fails its assertion if and only if some entry's binding point
is not strictly below the capacity, and it does so on the first such entry, before storing
it (entries ahead of it have been stored). When every entry is below the capacity the call
succeeds; the slot of each entry that is the last one for its binding point holds that
entry's name, slots named by no entry are unchanged, and so is the rest of the program. -/
theorem uniformBlockBindings_fails_iff_out_of_range (cap : Nat) (self : Program)
    (items : List (String × Nat)) (hwf : self.mUniformBlocks.length = cap) :
    ((∃ s, Program.uniformBlockBindings cap self items = Except.error s) ↔
        ∃ e ∈ items, ¬ e.2 < cap) ∧
    (∀ s, Program.uniformBlockBindings cap self items = Except.error s →
        ∃ pre bad post, items = pre ++ bad :: post ∧ (∀ e ∈ pre, e.2 < cap) ∧
          ¬ bad.2 < cap ∧ Program.uniformBlockBindings cap self pre = Except.ok s) ∧
    ((∀ e ∈ items, e.2 < cap) →
        ∃ p, Program.uniformBlockBindings cap self items = Except.ok p ∧
          (∀ pre e post, items = pre ++ e :: post → (∀ x ∈ post, x.2 ≠ e.2) →
              p.mUniformBlocks[e.2]? = some e.1) ∧
          (∀ slot, (∀ e ∈ items, e.2 ≠ slot) →
              p.mUniformBlocks[slot]? = self.mUniformBlocks[slot]?) ∧
          p.mUniformBlocks.length = cap ∧
          p.mSamplerGroups = self.mSamplerGroups ∧
          p.mShadersSource = self.mShadersSource ∧
          p.mName = self.mName ∧
          p.mLogger = self.mLogger) := by
  refine ⟨⟨?_, Program.uniformBlockBindings_fails cap self items⟩, ?_, ?_⟩
  · rintro ⟨s, hs⟩
    obtain ⟨pre, bad, post, hsplit, _, hbad, _⟩ :=
      Program.uniformBlockBindings_error cap self s items hs
    exact ⟨bad, by simp [hsplit], hbad⟩
  · intro s hs
    obtain ⟨pre, bad, post, hsplit, hpre, hbad, hst⟩ :=
      Program.uniformBlockBindings_error cap self s items hs
    exact ⟨pre, bad, post, hsplit, hpre, hbad,
      hst ▸ Program.uniformBlockBindings_ok cap self pre hpre⟩
  · intro hall
    refine ⟨Program.storeBindings self items,
      Program.uniformBlockBindings_ok cap self items hall, ?_, ?_, ?_⟩
    · intro pre e post hsplit hpost
      subst hsplit
      have he : e.2 < cap := hall e (by simp)
      exact Program.storeBindings_last_wins self pre post e (hwf ▸ he) hpost
    · intro slot hslot
      exact Program.storeBindings_untouched self items slot hslot
    · obtain ⟨h1, h2, h3, h4, h5⟩ := Program.storeBindings_frame self items
      exact ⟨h5.trans hwf, h1, h2, h3, h4⟩

/-- C3, at a concrete input: with capacity 8, two entries for slot 3 and one for slot 7 are
accepted, slot 3 ends with the later name, and adding an entry for slot 8 fails. -/
theorem uniformBlockBindings_fails_iff_out_of_range_witness :
    (emptyProgram 8).mUniformBlocks.length = 8 ∧
    ((∃ s, Program.uniformBlockBindings 8 (emptyProgram 8)
        [("FrameUniforms", 3), ("ObjectUniforms", 8)] = Except.error s) ↔
      ∃ e ∈ [("FrameUniforms", 3), ("ObjectUniforms", 8)], ¬ e.2 < 8) ∧
    (∃ s, Program.uniformBlockBindings 8 (emptyProgram 8)
        [("FrameUniforms", 3), ("ObjectUniforms", 8)] = Except.error s) ∧
    (∃ p, Program.uniformBlockBindings 8 (emptyProgram 8)
        [("FrameUniforms", 3), ("MaterialParams", 7), ("LightsUniforms", 3)] = Except.ok p ∧
      p.mUniformBlocks = ["", "", "", "LightsUniforms", "", "", "", "MaterialParams"]) :=
  ⟨rfl,
   (uniformBlockBindings_fails_iff_out_of_range 8 (emptyProgram 8)
      [("FrameUniforms", 3), ("ObjectUniforms", 8)] rfl).1,
   ⟨_, rfl⟩,
   ⟨_, rfl, rfl⟩⟩

/-- The loop stops at the first entry that is not below the capacity: the entries before it
have been stored, that entry and the ones after it have not. -/
theorem Program.uniformBlockBindings_stops_at (cap : Nat) (self : Program)
    (pre post : List (String × Nat)) (bad : String × Nat)
    (hpre : ∀ e ∈ pre, e.2 < cap) (hbad : ¬ bad.2 < cap) :
    Program.uniformBlockBindings cap self (pre ++ bad :: post) =
      Except.error (Program.storeBindings self pre) := by
  induction pre generalizing self with
  | nil =>
    rw [List.nil_append, Program.uniformBlockBindings_cons, if_neg hbad,
      Program.storeBindings_nil]
  | cons e pre ih =>
    have he : e.2 < cap := hpre e (List.mem_cons_self _ _)
    rw [List.cons_append, Program.uniformBlockBindings_cons, if_pos he,
      Program.storeBindings_cons]
    exact ih _ (fun x hx => hpre x (List.mem_cons_of_mem _ hx))

/-- C4: with a capacity of 8 uniform binding points (slots 0 to 7), an entry whose binding
point is 9 fails the capacity assertion. Given alone, the call fails and leaves the program
as it was, so the entry is stored in no slot, neither clamped (slot 7) nor wrapped (slot 1).
Given after valid entries, the call fails on that entry: the entries before it have been
stored, and every slot they do not name holds what it held before. -/
theorem binding_point_nine_rejected_at_capacity_eight (self : Program) (name : String)
    (pre post : List (String × Nat)) (hwf : self.mUniformBlocks.length = 8)
    (hpre : ∀ e ∈ pre, e.2 < 8) :
    Program.uniformBlockBindings 8 self [(name, 9)] = Except.error self ∧
    (∀ p, Program.uniformBlockBindings 8 self [(name, 9)] ≠ Except.ok p) ∧
    Program.uniformBlockBindings 8 self (pre ++ (name, 9) :: post) =
      Except.error (Program.storeBindings self pre) ∧
    (∀ p, Program.uniformBlockBindings 8 self (pre ++ (name, 9) :: post) ≠ Except.ok p) ∧
    (∀ slot, (∀ e ∈ pre, e.2 ≠ slot) →
      (Program.storeBindings self pre).mUniformBlocks[slot]? = self.mUniformBlocks[slot]?) ∧
    (Program.storeBindings self pre).mUniformBlocks.length = 8 ∧
    (Program.storeBindings self pre).mUniformBlocks[9]? = none := by
  have h9 : ¬ ((name, 9) : String × Nat).2 < 8 := by simp
  have hone : Program.uniformBlockBindings 8 self [(name, 9)] = Except.error self :=
    Program.uniformBlockBindings_stops_at 8 self [] [] (name, 9) (by simp) h9
  have hlist := Program.uniformBlockBindings_stops_at 8 self pre post (name, 9) hpre h9
  have hlen : (Program.storeBindings self pre).mUniformBlocks.length = 8 :=
    (Program.storeBindings_frame self pre).2.2.2.2.trans hwf
  refine ⟨hone, ?_, hlist, ?_, ?_, hlen, ?_⟩
  · intro p hp
    rw [hone] at hp
    cases hp
  · intro p hp
    rw [hlist] at hp
    cases hp
  · intro slot hslot
    exact Program.storeBindings_untouched self pre slot hslot
  · exact List.getElem?_eq_none (by omega)

/-- C4, at a concrete input: on a program with 8 empty slots, binding point 9 alone is
rejected with the program unchanged, and after an entry for slot 0 it is rejected with only
slot 0 written. -/
theorem binding_point_nine_rejected_at_capacity_eight_witness :
    (emptyProgram 8).mUniformBlocks.length = 8 ∧
    (∀ e ∈ [("FrameUniforms", 0)], e.2 < 8) ∧
    Program.uniformBlockBindings 8 (emptyProgram 8) [("MaterialParams", 9)] =
      Except.error (emptyProgram 8) ∧
    (∃ s, Program.uniformBlockBindings 8 (emptyProgram 8)
        [("FrameUniforms", 0), ("MaterialParams", 9), ("LightsUniforms", 4)] =
          Except.error s ∧
      s.mUniformBlocks = ["FrameUniforms", "", "", "", "", "", "", ""]) :=
  ⟨rfl, by decide,
   (binding_point_nine_rejected_at_capacity_eight (emptyProgram 8) "MaterialParams"
      [("FrameUniforms", 0)] [("LightsUniforms", 4)] rfl (by decide)).1,
   ⟨_, rfl, rfl⟩⟩

/-! ### `Program::shader` and `Program::setSamplerGroup` -/

theorem resize_length {α : Type} (v : List α) (n : Nat) (dflt : α) :
    (resize v n dflt).length = n := by
  simp only [resize, List.length_append, List.length_take, List.length_replicate]
  omega

/-- The algorithm `copy_n` never changes the size of its destination. -/
theorem copy_n_length {α : Type} (src : List α) (n : Nat) (dst : List α) :
    (copy_n src n dst).length = dst.length := by
  induction src generalizing n dst with
  | nil => simp [copy_n]
  | cons a src ih =>
    cases n with
    | zero => simp [copy_n]
    | succ n =>
      cases dst with
      | nil => simp [copy_n]
      | cons d dst => simp [copy_n, ih]

/-- Copying a whole sequence over a destination of the same length leaves the sequence. -/
theorem copy_n_full {α : Type} (src dst : List α) (h : dst.length = src.length) :
    copy_n src src.length dst = src := by
  induction src generalizing dst with
  | nil =>
    cases dst with
    | nil => rfl
    | cons d dst => simp at h
  | cons a src ih =>
    cases dst with
    | nil => simp at h
    | cons d dst =>
      simp only [List.length_cons, copy_n]
      rw [ih dst (by simpa using h)]

theorem ShaderType.toNat_injective (a b : ShaderType) (h : a.toNat = b.toNat) : a = b := by
  cases a <;> cases b <;> simp [ShaderType.toNat] at h <;> rfl

theorem ShaderType.toNat_lt (a : ShaderType) : a.toNat < SHADER_TYPE_COUNT := by
  cases a <;> simp [ShaderType.toNat, SHADER_TYPE_COUNT]

/-- The blob that `shader` stores is the given byte sequence. -/
theorem Program.shader_eq (self : Program) (s : ShaderType) (b : List Nat) :
    self.shader s b b.length =
      { self with mShadersSource := self.mShadersSource.set s.toNat b } := by
  simp [Program.shader, copy_n_full]

/-- C9: after `shader(s, b, n)` with `b` of length `n`, the blob stored for stage `s` is
exactly `b`, whatever was stored there before (a second call for the same stage leaves only
the second blob); the blobs of the other stages, the uniform-block bindings, the sampler
groups, the name and the logger are unchanged. -/
theorem shader_overwrites_own_stage_only (self : Program) (s : ShaderType) (b : List Nat)
    (hwf : self.mShadersSource.length = SHADER_TYPE_COUNT) :
    (self.shader s b b.length).mShadersSource[s.toNat]? = some b ∧
    (∀ b0 : List Nat,
        ((self.shader s b0 b0.length).shader s b b.length).mShadersSource[s.toNat]? = some b ∧
        (self.shader s b0 b0.length).shader s b b.length = self.shader s b b.length) ∧
    (∀ t : ShaderType, t ≠ s →
        (self.shader s b b.length).mShadersSource[t.toNat]? = self.mShadersSource[t.toNat]?) ∧
    (self.shader s b b.length).mShadersSource.length = SHADER_TYPE_COUNT ∧
    (self.shader s b b.length).mUniformBlocks = self.mUniformBlocks ∧
    (self.shader s b b.length).mSamplerGroups = self.mSamplerGroups ∧
    (self.shader s b b.length).mName = self.mName ∧
    (self.shader s b b.length).mLogger = self.mLogger := by
  have hs : s.toNat < self.mShadersSource.length := hwf ▸ ShaderType.toNat_lt s
  refine ⟨?_, ?_, ?_, ?_, ?_, ?_, ?_, ?_⟩
  · rw [Program.shader_eq]; simp [List.getElem?_set_self hs]
  · intro b0
    constructor
    · rw [Program.shader_eq, Program.shader_eq]
      simp [List.getElem?_set_self hs]
    · rw [Program.shader_eq, Program.shader_eq, Program.shader_eq]
      simp [List.set_set]
  · intro t ht
    rw [Program.shader_eq]
    have hne : s.toNat ≠ t.toNat := fun h => ht (ShaderType.toNat_injective _ _ h).symm
    simp [List.getElem?_set_ne hne]
  · rw [Program.shader_eq]; simpa using hwf
  · rw [Program.shader_eq]
  · rw [Program.shader_eq]
  · rw [Program.shader_eq]
  · rw [Program.shader_eq]

/-- C9, at a concrete input: a fragment blob replaces an earlier one and the vertex and
compute slots stay empty. -/
theorem shader_overwrites_own_stage_only_witness :
    (emptyProgram 8).mShadersSource.length = SHADER_TYPE_COUNT ∧
    (((emptyProgram 8).shader ShaderType.FRAGMENT [9, 9, 9, 9] 4).shader
        ShaderType.FRAGMENT [1, 2, 3] 3).mShadersSource = [[], [1, 2, 3], []] ∧
    ((emptyProgram 8).shader ShaderType.FRAGMENT [1, 2, 3]
        [1, 2, 3].length).mShadersSource[ShaderType.FRAGMENT.toNat]? = some [1, 2, 3] :=
  ⟨rfl, rfl,
   (shader_overwrites_own_stage_only (emptyProgram 8) ShaderType.FRAGMENT [1, 2, 3] rfl).1⟩

/-- The group that `setSamplerGroup` stores holds the given flags and sampler list. -/
theorem Program.setSamplerGroup_eq (self : Program) (p : Nat) (f : ShaderStageFlags)
    (samplers : List Program.Sampler) (hp : p < self.mSamplerGroups.length) :
    self.setSamplerGroup p f samplers samplers.length =
      { self with mSamplerGroups :=
          self.mSamplerGroups.set p { stageFlags := f, samplers := samplers } } := by
  unfold Program.setSamplerGroup
  rw [List.getElem?_eq_getElem hp]
  simp [copy_n_full, resize_length]

/-- C10: for a binding point `p` inside the sampler-group array, after
`setSamplerGroup(p, f, samplers, count)` with `count` the length of `samplers`, the group at
`p` has stage flags `f` and its sampler list is exactly `samplers` (nothing of the list
stored before remains, however long it was); the groups at the other binding points, the
shader blobs, the uniform-block bindings, the name and the logger are unchanged. -/
theorem setSamplerGroup_replaces_group (cap : Nat) (self : Program) (p : Nat)
    (f : ShaderStageFlags) (samplers : List Program.Sampler)
    (hwf : self.mSamplerGroups.length = cap) (hp : p < cap) :
    (self.setSamplerGroup p f samplers samplers.length).mSamplerGroups[p]? =
        some { stageFlags := f, samplers := samplers } ∧
    (∀ g, (self.setSamplerGroup p f samplers samplers.length).mSamplerGroups[p]? = some g →
        g.stageFlags = f ∧ g.samplers.length = samplers.length ∧
        ∀ i : Nat, g.samplers[i]? = samplers[i]?) ∧
    (∀ q, q ≠ p →
        (self.setSamplerGroup p f samplers samplers.length).mSamplerGroups[q]? =
          self.mSamplerGroups[q]?) ∧
    (self.setSamplerGroup p f samplers samplers.length).mSamplerGroups.length = cap ∧
    (self.setSamplerGroup p f samplers samplers.length).mShadersSource =
        self.mShadersSource ∧
    (self.setSamplerGroup p f samplers samplers.length).mUniformBlocks =
        self.mUniformBlocks ∧
    (self.setSamplerGroup p f samplers samplers.length).mName = self.mName ∧
    (self.setSamplerGroup p f samplers samplers.length).mLogger = self.mLogger := by
  have hp2 : p < self.mSamplerGroups.length := hwf ▸ hp
  rw [Program.setSamplerGroup_eq self p f samplers hp2]
  have hget : (self.mSamplerGroups.set p
      ({ stageFlags := f, samplers := samplers } : Program.SamplerGroupInfo))[p]? =
      some { stageFlags := f, samplers := samplers } := List.getElem?_set_self hp2
  refine ⟨hget, ?_, ?_, ?_, rfl, rfl, rfl, rfl⟩
  · intro g hg
    have hg2 : (self.mSamplerGroups.set p
        ({ stageFlags := f, samplers := samplers } : Program.SamplerGroupInfo))[p]? =
        some g := hg
    rw [hget] at hg2
    injection hg2 with hg2
    subst hg2
    exact ⟨rfl, rfl, fun _ => rfl⟩
  · intro q hq
    exact List.getElem?_set_ne (Ne.symm hq)
  · simpa using hwf

/-- C10, at a concrete input: binding point 2 holds three samplers; setting one sampler there
leaves a list of exactly that one. -/
theorem setSamplerGroup_replaces_group_witness :
    programWithSamplers.mSamplerGroups.length = 4 ∧ 2 < 4 ∧
    programWithSamplers.mSamplerGroups[2]? =
      some { stageFlags := 1, samplers := [samplerA, samplerB, samplerC] } ∧
    (programWithSamplers.setSamplerGroup 2 3 [samplerB] [samplerB].length).mSamplerGroups[2]? =
      some { stageFlags := 3, samplers := [samplerB] } :=
  ⟨rfl, by decide, rfl,
   (setSamplerGroup_replaces_group 4 programWithSamplers 2 3 [samplerB] rfl (by decide)).1⟩

/-! ### The uniform interface block layout -/

namespace UniformInterfaceBlock

theorem layout_nil (offset : Nat) : layout offset [] = ([], offset) := rfl

theorem layout_cons (offset : Nat) (e : UniformInfo) (es : List UniformInfo) :
    layout offset (e :: es) =
      ({ e with offset := placeAt offset e.type e.size % 2 ^ 16, stride := fieldStride e } ::
          (layout ((placeAt offset e.type e.size % 2 ^ 16 + fieldWords e) % 2 ^ 16) es).1,
        (layout ((placeAt offset e.type e.size % 2 ^ 16 + fieldWords e) % 2 ^ 16) es).2) :=
  rfl

/-- A field is placed on a multiple of the base alignment of its type, also when the
cursor wraps. -/
theorem placeAt_aligned (offset : Nat) (type : UniformType) (size : Nat) :
    (placeAt offset type size % 2 ^ 16) % baseAlignmentForType type = 0 := by
  unfold placeAt fieldAlignment
  by_cases h : size > 1
  · rw [if_pos h]
    cases type <;> simp only [baseAlignmentForType, roundUp4] <;> omega
  · rw [if_neg h]
    cases type <;> simp only [baseAlignmentForType] <;> omega

theorem le_placeAt (offset : Nat) (type : UniformType) (size : Nat) :
    offset ≤ placeAt offset type size := by
  unfold placeAt; omega

/-- The layout pass keeps name, type, array length, precision and struct name of every
entry, in order. -/
theorem layout_keeps_entries (offset : Nat) (es : List UniformInfo) :
    (layout offset es).1.map (fun i => (i.name, i.type, i.size, i.precision, i.structName)) =
      es.map (fun i => (i.name, i.type, i.size, i.precision, i.structName)) := by
  induction es generalizing offset with
  | nil => rfl
  | cons e es ih => rw [layout_cons]; simp [ih]

theorem layout_offsets_aligned (offset : Nat) (es : List UniformInfo) :
    ∀ info ∈ (layout offset es).1, info.offset % baseAlignmentForType info.type = 0 := by
  induction es generalizing offset with
  | nil => intro info h; simp [layout_nil] at h
  | cons e es ih =>
    intro info h
    rw [layout_cons] at h
    rcases List.mem_cons.mp h with rfl | h
    · exact placeAt_aligned offset e.type e.size
    · exact ih _ info h

/-- The entries a builder holds after a sequence of `add` calls. -/
theorem Builder.foldl_add_entries (lists : List (List UniformBlockEntry)) (b : Builder) :
    (lists.foldl Builder.add b).mEntries =
      b.mEntries ++ lists.flatten.map UniformBlockEntry.toInfo := by
  induction lists generalizing b with
  | nil => simp
  | cons l ls ih =>
    rw [List.foldl_cons, ih]
    simp [Builder.add]

theorem Builder.addAll_entries (lists : List (List UniformBlockEntry)) :
    (Builder.addAll lists).mEntries = lists.flatten.map UniformBlockEntry.toInfo := by
  unfold Builder.addAll
  rw [Builder.foldl_add_entries]
  rfl

theorem le_roundUp4 (n : Nat) : n ≤ roundUp4 n := by
  unfold roundUp4; omega

/-- A stride that fits the `uint8_t` member survives the narrowing in `add` and in
`strideForType`. -/
theorem strideForType_toInfo (d : UniformBlockEntry) (h : d.elementStride < 2 ^ 8) :
    strideForType d.toInfo.type d.toInfo.stride = elementWidth d.type d.stride := by
  have hw : elementWidth d.type d.stride < 2 ^ 8 := by
    unfold UniformBlockEntry.elementStride at h
    have := le_roundUp4 (elementWidth d.type d.stride)
    split at h <;> omega
  unfold strideForType UniformBlockEntry.toInfo
  simp only
  cases ht : d.type <;> rw [ht] at hw <;> simp only [elementWidth] at hw ⊢ <;> omega

/-- For a descriptor whose stride fits, the cursor moves by the extent of the field and the
recorded stride is the padded element stride of an array, 0 otherwise. -/
theorem fieldWords_toInfo (d : UniformBlockEntry) (h : d.elementStride < 2 ^ 8) :
    fieldWords d.toInfo = d.extent ∧
    fieldStride d.toInfo = (if d.size > 1 then d.elementStride else 0) := by
  have hw := strideForType_toInfo d h
  have hsz : d.toInfo.size = d.size := rfl
  unfold fieldWords fieldStride arrayStride UniformBlockEntry.extent
  rw [hw, hsz]
  unfold UniformBlockEntry.elementStride at h ⊢
  by_cases hs : d.size > 1
  · rw [if_pos hs] at h
    have h2 : max 1 d.size = d.size := Nat.max_eq_right (by omega)
    rw [if_pos hs, if_pos hs, if_pos hs, if_pos hs, Nat.mod_eq_of_lt h, h2]
    exact ⟨rfl, rfl⟩
  · have h1 : max 1 d.size = 1 := Nat.max_eq_left (by omega)
    rw [if_neg hs, if_neg hs, if_neg hs, if_neg hs, h1, Nat.mul_one]
    exact ⟨rfl, rfl⟩

/-- One step of the layout pass on a descriptor that fits. -/
theorem layout_cons_fits (offset : Nat) (d : UniformBlockEntry) (es : List UniformInfo)
    (hs : d.elementStride < 2 ^ 8)
    (hlt : placeAt offset d.type d.size + d.extent < 2 ^ 16) :
    layout offset (d.toInfo :: es) =
      ({ d.toInfo with
            offset := placeAt offset d.type d.size,
            stride := if d.size > 1 then d.elementStride else 0 } ::
          (layout (placeAt offset d.type d.size + d.extent) es).1,
        (layout (placeAt offset d.type d.size + d.extent) es).2) := by
  obtain ⟨hwords, hstride⟩ := fieldWords_toInfo d hs
  have ht : d.toInfo.type = d.type := rfl
  have hsz : d.toInfo.size = d.size := rfl
  rw [layout_cons, hwords, hstride, ht, hsz, Nat.mod_eq_of_lt (by omega : placeAt offset
    d.type d.size < 2 ^ 16), Nat.mod_eq_of_lt hlt]
  rfl

/-- While the fields fit, the layout pass places every field at or after the cursor, the
fields follow one another without sharing a word, the final cursor is past all of them, and
the recorded strides are the padded element strides of the arrays. -/
theorem layout_fits (offset : Nat) (ds : List UniformBlockEntry)
    (hfit : fitsLayout offset ds = true) :
    (∀ p ∈ ds.zip (layout offset (ds.map UniformBlockEntry.toInfo)).1,
        offset ≤ p.2.offset ∧
        p.2.offset + p.1.extent ≤ (layout offset (ds.map UniformBlockEntry.toInfo)).2 ∧
        p.2.stride = (if p.1.size > 1 then p.1.elementStride else 0)) ∧
    List.Pairwise (fun p q : UniformBlockEntry × UniformInfo =>
        p.2.offset + p.1.extent ≤ q.2.offset)
      (ds.zip (layout offset (ds.map UniformBlockEntry.toInfo)).1) ∧
    offset ≤ (layout offset (ds.map UniformBlockEntry.toInfo)).2 := by
  induction ds generalizing offset with
  | nil => simp [layout_nil]
  | cons d ds ih =>
    simp only [fitsLayout, Bool.and_eq_true, decide_eq_true_eq] at hfit
    obtain ⟨⟨hs, hlt⟩, hrest⟩ := hfit
    obtain ⟨hall, hpair, hfinal⟩ := ih _ hrest
    have hplace := le_placeAt offset d.type d.size
    rw [List.map_cons, layout_cons_fits offset d _ hs hlt]
    simp only [List.zip_cons_cons]
    refine ⟨?_, ?_, by omega⟩
    · intro p hp
      rcases List.mem_cons.mp hp with rfl | hp
      · exact ⟨hplace, hfinal, rfl⟩
      · obtain ⟨h1, h2, h3⟩ := hall p hp
        exact ⟨by omega, h2, h3⟩
    · refine List.pairwise_cons.mpr ⟨?_, hpair⟩
      intro q hq
      exact (hall q hq).1

theorem not_placedOverlap_of_le (p q : UniformBlockEntry × UniformInfo)
    (h : p.2.offset + p.1.extent ≤ q.2.offset) : ¬ placedOverlap p q := by
  unfold placedOverlap
  omega

end UniformInterfaceBlock

/-- C5, as stated, fails when the fields do not fit the members that hold their layout. An
array of 16384 `vec4` takes words 0 to 65535, the 16-bit cursor wraps to 0, and the `float`
declared after it is given offset 0, inside the array; two such arrays overlap whatever
16-bit offsets they are given. A struct of 256 words has its stride narrowed to 0 in the
8-bit member, and the `float` declared after it is given offset 0, inside the struct. -/
theorem layout_overlaps_when_fields_exceed_members :
    ((UniformInterfaceBlock.Builder.addAll [oversizedFields]).build.mUniformsInfoList.map
        (fun i => (i.name, i.offset)) = [("big", 0), ("tail", 0)]) ∧
    ¬ List.Pairwise
        (fun p q : UniformInterfaceBlock.UniformBlockEntry × UniformInterfaceBlock.UniformInfo
          => ¬ UniformInterfaceBlock.placedOverlap p q)
        (oversizedFields.zip
          (UniformInterfaceBlock.Builder.addAll [oversizedFields]).build.mUniformsInfoList) ∧
    (∀ a b : UniformInterfaceBlock.UniformInfo, a.offset < 2 ^ 16 → b.offset < 2 ^ 16 →
        UniformInterfaceBlock.placedOverlap (bigArrayField, a) (bigArrayField, b)) ∧
    ((UniformInterfaceBlock.Builder.addAll [wideStructFields]).build.mUniformsInfoList.map
        (fun i => (i.name, i.offset)) = [("wide", 0), ("tail", 0)]) ∧
    ¬ List.Pairwise
        (fun p q : UniformInterfaceBlock.UniformBlockEntry × UniformInterfaceBlock.UniformInfo
          => ¬ UniformInterfaceBlock.placedOverlap p q)
        (wideStructFields.zip
          (UniformInterfaceBlock.Builder.addAll [wideStructFields]).build.mUniformsInfoList) := by
  refine ⟨by decide, by decide, ?_, by decide, by decide⟩
  intro a b ha hb
  have he : bigArrayField.extent = 65536 := by decide
  unfold UniformInterfaceBlock.placedOverlap
  simp only [he]
  omega

/-- C5 (amended): for any sequence of `add` calls followed by `build`, there is one info
record per descriptor, in declaration order; the offset of each field is a multiple of the
base alignment of its type; the block size is a multiple of 16 bytes (4 words). When the
fields fit the members that hold their layout (element strides below 2^8, cursor below
2^16), each field's words end where or before the next field begins, so no two fields
overlap; every field ends within the block; and the recorded stride is the element width
padded to a multiple of 4 words for an array and 0 for a non-array. -/
theorem layout_aligned_sized_and_disjoint_when_fields_fit
    (lists : List (List UniformInterfaceBlock.UniformBlockEntry)) :
    ((UniformInterfaceBlock.Builder.addAll lists).build.mUniformsInfoList.map
        (fun i => (i.name, i.type, i.size, i.precision, i.structName)) =
      lists.flatten.map (fun d => (d.name, d.type, d.size, d.precision, d.structName))) ∧
    (∀ info ∈ (UniformInterfaceBlock.Builder.addAll lists).build.mUniformsInfoList,
        info.offset % UniformInterfaceBlock.baseAlignmentForType info.type = 0) ∧
    (UniformInterfaceBlock.Builder.addAll lists).build.mSize % 16 = 0 ∧
    (UniformInterfaceBlock.fitsLayout 0 lists.flatten = true →
      List.Pairwise
        (fun p q : UniformInterfaceBlock.UniformBlockEntry × UniformInterfaceBlock.UniformInfo
          => p.2.offset + p.1.extent ≤ q.2.offset ∧
             ¬ UniformInterfaceBlock.placedOverlap p q)
        (lists.flatten.zip
          (UniformInterfaceBlock.Builder.addAll lists).build.mUniformsInfoList) ∧
      (∀ p ∈ lists.flatten.zip
          (UniformInterfaceBlock.Builder.addAll lists).build.mUniformsInfoList,
        4 * (p.2.offset + p.1.extent) ≤
          (UniformInterfaceBlock.Builder.addAll lists).build.mSize ∧
        p.2.stride = (if p.1.size > 1 then p.1.elementStride else 0) ∧
        (p.1.size > 1 → p.2.stride % 4 = 0 ∧
          UniformInterfaceBlock.elementWidth p.1.type p.1.stride ≤ p.2.stride))) := by
  have hent := UniformInterfaceBlock.Builder.addAll_entries lists
  have hlist : (UniformInterfaceBlock.Builder.addAll lists).build.mUniformsInfoList =
      (UniformInterfaceBlock.layout 0
        (lists.flatten.map UniformInterfaceBlock.UniformBlockEntry.toInfo)).1 := by
    simp only [UniformInterfaceBlock.Builder.build, hent]
  have hsize : (UniformInterfaceBlock.Builder.addAll lists).build.mSize =
      4 * UniformInterfaceBlock.roundUp4 (UniformInterfaceBlock.layout 0
        (lists.flatten.map UniformInterfaceBlock.UniformBlockEntry.toInfo)).2 := by
    simp only [UniformInterfaceBlock.Builder.build, hent]
  refine ⟨?_, ?_, ?_, ?_⟩
  · rw [hlist, UniformInterfaceBlock.layout_keeps_entries]
    simp [UniformInterfaceBlock.UniformBlockEntry.toInfo, Function.comp_def]
  · rw [hlist]
    exact UniformInterfaceBlock.layout_offsets_aligned 0 _
  · rw [hsize]
    unfold UniformInterfaceBlock.roundUp4
    omega
  · intro hfit
    obtain ⟨hall, hpair, _⟩ := UniformInterfaceBlock.layout_fits 0 lists.flatten hfit
    rw [hlist, hsize]
    refine ⟨hpair.imp
      (fun {p q} h => ⟨h, UniformInterfaceBlock.not_placedOverlap_of_le p q h⟩), ?_⟩
    intro p hp
    obtain ⟨_, hend, hstride⟩ := hall p hp
    have hr := UniformInterfaceBlock.le_roundUp4 (UniformInterfaceBlock.layout 0
      (lists.flatten.map UniformInterfaceBlock.UniformBlockEntry.toInfo)).2
    refine ⟨by omega, hstride, ?_⟩
    intro hs
    rw [hstride, if_pos hs]
    unfold UniformInterfaceBlock.UniformBlockEntry.elementStride
    rw [if_pos hs]
    have hw := UniformInterfaceBlock.le_roundUp4
      (UniformInterfaceBlock.elementWidth p.1.type p.1.stride)
    refine ⟨?_, hw⟩
    unfold UniformInterfaceBlock.roundUp4
    omega

/-- C5 (amended), at concrete inputs. On the spec's worked example `a` is at offset 0, `b`
at offset 3, `c` at offset 4, each with stride 0, 32 bytes in total. On a list mixing the
kinds of field, added in two calls, the fields fit, the array of scalars has stride 4, the
array of 6-word structs stride 8, the block has 192 bytes, and the fields follow one
another without overlap. -/
theorem layout_aligned_sized_and_disjoint_when_fields_fit_witness :
    ((UniformInterfaceBlock.Builder.addAll [exampleFields]).build.mUniformsInfoList.map
        (fun i => (i.name, i.offset, i.stride)) = [("a", 0, 0), ("b", 3, 0), ("c", 4, 0)]) ∧
    (UniformInterfaceBlock.Builder.addAll [exampleFields]).build.mSize = 32 ∧
    UniformInterfaceBlock.fitsLayout 0
      [mixedFields.take 2, mixedFields.drop 2].flatten = true ∧
    ((UniformInterfaceBlock.Builder.addAll
        [mixedFields.take 2, mixedFields.drop 2]).build.mUniformsInfoList.map
        (fun i => (i.name, i.offset, i.stride)) =
      [("x", 0, 0), ("y", 2, 0), ("arr", 4, 4), ("m", 16, 0), ("s", 28, 8), ("z", 44, 0)]) ∧
    (UniformInterfaceBlock.Builder.addAll
        [mixedFields.take 2, mixedFields.drop 2]).build.mSize = 192 ∧
    List.Pairwise
      (fun p q : UniformInterfaceBlock.UniformBlockEntry × UniformInterfaceBlock.UniformInfo
        => p.2.offset + p.1.extent ≤ q.2.offset ∧
           ¬ UniformInterfaceBlock.placedOverlap p q)
      ([mixedFields.take 2, mixedFields.drop 2].flatten.zip
        (UniformInterfaceBlock.Builder.addAll
          [mixedFields.take 2, mixedFields.drop 2]).build.mUniformsInfoList) :=
  ⟨by decide, by decide, by decide, by decide, by decide,
   ((layout_aligned_sized_and_disjoint_when_fields_fit
      [mixedFields.take 2, mixedFields.drop 2]).2.2.2 (by decide)).1⟩

/-! ### `UniformInfo::getBufferOffset` -/

/-- The assertion of `getBufferOffset` as a case distinction. -/
theorem UniformInterfaceBlock.UniformInfo.getBufferOffset_eq
    (info : UniformInterfaceBlock.UniformInfo) (i : Nat) :
    info.getBufferOffset i =
      if i < max 1 info.size then
        some (((info.offset + (info.stride * i) % 2 ^ 64) % 2 ^ 64 * 4) % 2 ^ 64)
      else none := by
  by_cases h : i < max 1 info.size <;>
    simp [UniformInterfaceBlock.UniformInfo.getBufferOffset, assert_invariant, h]

/-- C6: for an info record whose members are within their types and an index `i`,
`getBufferOffset(i)` passes its assertion exactly when `i < max(1, size)`; it then returns
`(offset + stride * i) * 4`, the byte offset of word `offset + stride * i`. Index 0 always
passes, and any `i ≥ max(1, size)` fails the assertion. -/
theorem getBufferOffset_eq_offset_plus_stride (info : UniformInterfaceBlock.UniformInfo)
    (i : Nat) (hr : info.InRange) :
    (i < max 1 info.size →
        info.getBufferOffset i = some ((info.offset + info.stride * i) * 4)) ∧
    (max 1 info.size ≤ i → info.getBufferOffset i = none) ∧
    ((info.getBufferOffset i).isSome = true ↔ i < max 1 info.size) ∧
    (∀ bytes, info.getBufferOffset i = some bytes →
        bytes / 4 = info.offset + info.stride * i ∧ bytes % 4 = 0) ∧
    info.getBufferOffset 0 = some (info.offset * 4) := by
  obtain ⟨ho, hs, hz⟩ := hr
  have hval : i < max 1 info.size →
      ((info.offset + (info.stride * i) % 2 ^ 64) % 2 ^ 64 * 4) % 2 ^ 64 =
        (info.offset + info.stride * i) * 4 := by
    intro hi
    have hi2 : i < 2 ^ 32 := by omega
    have hm : info.stride * i < 2 ^ 8 * 2 ^ 32 :=
      Nat.mul_lt_mul'' hs hi2
    have h1 : (info.stride * i) % 2 ^ 64 = info.stride * i :=
      Nat.mod_eq_of_lt (by omega)
    rw [h1, Nat.mod_eq_of_lt (by omega), Nat.mod_eq_of_lt (by omega)]
  have h0 : (0 : Nat) < max 1 info.size := by omega
  refine ⟨?_, ?_, ?_, ?_, ?_⟩
  · intro hi
    simp only [UniformInterfaceBlock.UniformInfo.getBufferOffset_eq, if_pos hi, hval hi]
  · intro hi
    simp only [UniformInterfaceBlock.UniformInfo.getBufferOffset_eq, if_neg (by omega : ¬ i < max 1 info.size)]
  · by_cases hi : i < max 1 info.size
    · simp [UniformInterfaceBlock.UniformInfo.getBufferOffset_eq, hi]
    · simp [UniformInterfaceBlock.UniformInfo.getBufferOffset_eq, hi]
  · intro bytes hb
    by_cases hi : i < max 1 info.size
    · simp only [UniformInterfaceBlock.UniformInfo.getBufferOffset_eq, if_pos hi, hval hi] at hb
      injection hb with hb
      omega
    · simp [UniformInterfaceBlock.UniformInfo.getBufferOffset_eq, hi] at hb
  · simp only [UniformInterfaceBlock.UniformInfo.getBufferOffset_eq, if_pos h0, Nat.mul_zero,
      Nat.zero_mod, Nat.add_zero]
    rw [Nat.mod_eq_of_lt (by omega), Nat.mod_eq_of_lt (by omega)]

/-- C6, at a concrete input: element 2 of an array of 3 with offset 4 and stride 4 is at
byte 48. -/
theorem getBufferOffset_eq_offset_plus_stride_witness :
    (2 < max 1 3) ∧
    UniformInterfaceBlock.UniformInfo.getBufferOffset
      { name := "lights", offset := 4, stride := 4, type := UniformType.FLOAT4, size := 3,
        precision := Precision.HIGH, structName := "" } 2 = some ((4 + 4 * 2) * 4) :=
  ⟨by decide,
   (getBufferOffset_eq_offset_plus_stride
      { name := "lights", offset := 4, stride := 4, type := UniformType.FLOAT4, size := 3,
        precision := Precision.HIGH, structName := "" } 2
      ⟨by decide, by decide, by decide⟩).1 (by decide)⟩

/-! ### Fixed-function setters of the material instance -/

/-- C7: each of the seven face-masked stencil setters writes its value to its own member of
the front record exactly when the mask contains FRONT and of the back record exactly when
the mask contains BACK; every other per-face member, `stencilWrite` and the rest of the
instance are unchanged; with a mask containing neither face the instance is unchanged. -/
theorem stencil_setters_apply_per_face (self : FMaterialInstance) (face : StencilFace)
    (func : StencilCompareFunc) (op : StencilOperation) (value : Nat) :
    FaceMaskedUpdate (fun o => o.stencilFunc) (fun o x => { o with stencilFunc := x })
        func face self (self.setStencilCompareFunction func face) ∧
    FaceMaskedUpdate (fun o => o.stencilOpStencilFail)
        (fun o x => { o with stencilOpStencilFail := x })
        op face self (self.setStencilOpStencilFail op face) ∧
    FaceMaskedUpdate (fun o => o.stencilOpDepthFail)
        (fun o x => { o with stencilOpDepthFail := x })
        op face self (self.setStencilOpDepthFail op face) ∧
    FaceMaskedUpdate (fun o => o.stencilOpDepthStencilPass)
        (fun o x => { o with stencilOpDepthStencilPass := x })
        op face self (self.setStencilOpDepthStencilPass op face) ∧
    FaceMaskedUpdate (fun o => o.ref) (fun o x => { o with ref := x })
        value face self (self.setStencilReferenceValue value face) ∧
    FaceMaskedUpdate (fun o => o.readMask) (fun o x => { o with readMask := x })
        value face self (self.setStencilReadMask value face) ∧
    FaceMaskedUpdate (fun o => o.writeMask) (fun o x => { o with writeMask := x })
        value face self (self.setStencilWriteMask value face) ∧
    ((face.hasFront = false ∧ face.hasBack = false) →
        self.setStencilCompareFunction func face = self ∧
        self.setStencilOpStencilFail op face = self ∧
        self.setStencilOpDepthFail op face = self ∧
        self.setStencilOpDepthStencilPass op face = self ∧
        self.setStencilReferenceValue value face = self ∧
        self.setStencilReadMask value face = self ∧
        self.setStencilWriteMask value face = self) ∧
    (StencilFace.hasFront 0 = false ∧ StencilFace.hasBack 0 = false) ∧
    (StencilFace.hasFront StencilFace.FRONT = true ∧
      StencilFace.hasBack StencilFace.FRONT = false) ∧
    (StencilFace.hasFront StencilFace.BACK = false ∧
      StencilFace.hasBack StencilFace.BACK = true) ∧
    (StencilFace.hasFront StencilFace.FRONT_AND_BACK = true ∧
      StencilFace.hasBack StencilFace.FRONT_AND_BACK = true) := by
  refine ⟨?_, ?_, ?_, ?_, ?_, ?_, ?_, ?_, by decide, by decide, by decide, by decide⟩
  · unfold FaceMaskedUpdate FMaterialInstance.setStencilCompareFunction
    cases face.hasFront <;> cases face.hasBack <;> simp
  · unfold FaceMaskedUpdate FMaterialInstance.setStencilOpStencilFail
    cases face.hasFront <;> cases face.hasBack <;> simp
  · unfold FaceMaskedUpdate FMaterialInstance.setStencilOpDepthFail
    cases face.hasFront <;> cases face.hasBack <;> simp
  · unfold FaceMaskedUpdate FMaterialInstance.setStencilOpDepthStencilPass
    cases face.hasFront <;> cases face.hasBack <;> simp
  · unfold FaceMaskedUpdate FMaterialInstance.setStencilReferenceValue
    cases face.hasFront <;> cases face.hasBack <;> simp
  · unfold FaceMaskedUpdate FMaterialInstance.setStencilReadMask
    cases face.hasFront <;> cases face.hasBack <;> simp
  · unfold FaceMaskedUpdate FMaterialInstance.setStencilWriteMask
    cases face.hasFront <;> cases face.hasBack <;> simp
  · rintro ⟨hf, hb⟩
    simp [FMaterialInstance.setStencilCompareFunction,
      FMaterialInstance.setStencilOpStencilFail, FMaterialInstance.setStencilOpDepthFail,
      FMaterialInstance.setStencilOpDepthStencilPass,
      FMaterialInstance.setStencilReferenceValue, FMaterialInstance.setStencilReadMask,
      FMaterialInstance.setStencilWriteMask, hf, hb]

/-- C7, at a concrete input: with the empty mask none of the seven setters changes the
instance. -/
theorem stencil_setters_apply_per_face_witness :
    (StencilFace.hasFront 0 = false ∧ StencilFace.hasBack 0 = false) ∧
    (sampleInstance.setStencilCompareFunction SamplerCompareFunc.NE 0 = sampleInstance ∧
     sampleInstance.setStencilOpStencilFail StencilOperation.INVERT 0 = sampleInstance ∧
     sampleInstance.setStencilOpDepthFail StencilOperation.INVERT 0 = sampleInstance ∧
     sampleInstance.setStencilOpDepthStencilPass StencilOperation.INVERT 0 = sampleInstance ∧
     sampleInstance.setStencilReferenceValue 5 0 = sampleInstance ∧
     sampleInstance.setStencilReadMask 5 0 = sampleInstance ∧
     sampleInstance.setStencilWriteMask 5 0 = sampleInstance) :=
  ⟨⟨by decide, by decide⟩,
   (stencil_setters_apply_per_face sampleInstance 0 SamplerCompareFunc.NE
      StencilOperation.INVERT 5).2.2.2.2.2.2.2.1 ⟨by decide, by decide⟩⟩

/-- A setter that keeps the four buffer-related members keeps the commit path. -/
theorem leavesBuffersAlone_of_eq (old new : FMaterialInstance)
    (h1 : new.mUniforms = old.mUniforms) (h2 : new.mSamplers = old.mSamplers)
    (h3 : new.mUbHandle = old.mUbHandle) (h4 : new.mSbHandle = old.mSbHandle) :
    LeavesBuffersAlone old new := by
  refine ⟨h1, h2, h3, h4, by rw [h1], by rw [h2], ?_⟩
  intro commitSlow driver
  unfold FMaterialInstance.commit
  rw [h1, h2]
  split <;> rfl

/-- C8, as stated, fails for the polygon offset: after `setPolygonOffset(1.0f, 2.0f)` the
getter does not return 1.0f and 2.0f but -1.0f and -2.0f. -/
theorem getPolygonOffset_differs_from_value_set :
    (sampleInstance.setPolygonOffset 0x3f800000 0x40000000).getPolygonOffset ≠
        { slope := 0x3f800000, constant := 0x40000000 } ∧
    (sampleInstance.setPolygonOffset 0x3f800000 0x40000000).getPolygonOffset =
        { slope := 0xbf800000, constant := 0xc0000000 } := by
  constructor <;> decide

/-- C8 (amended): none of the fixed-function setters touches the uniform mirror, the sampler
mirror, their dirty flags or the two GPU handles, so a following `commit` takes the slow
path exactly when it would have before; each changes only its own member. The getter gives
back the value just set for `setCullingMode`, `setColorWrite`, `setDepthWrite` and
`setStencilWrite`, and for a stencil setter on the faces its mask contains;
`getScissor` gives the rectangle with width and height clamped to INT32_MAX (the full
rectangle after `unsetScissor`); `getPolygonOffset` gives the negated scale and constant. -/
theorem fixed_function_setters_leave_buffers_alone (self : FMaterialInstance)
    (culling : CullingMode) (enable : Bool) (func : StencilCompareFunc)
    (op : StencilOperation) (value : Nat) (face : StencilFace)
    (left bottom : Int) (width height : Nat) (scale constant : Float32) :
    (LeavesBuffersAlone self (self.setCullingMode culling) ∧
      { self.setCullingMode culling with mCulling := self.mCulling } = self ∧
      (self.setCullingMode culling).getCullingMode = culling) ∧
    (LeavesBuffersAlone self (self.setColorWrite enable) ∧
      { self.setColorWrite enable with mColorWrite := self.mColorWrite } = self ∧
      (self.setColorWrite enable).getColorWrite = enable) ∧
    (LeavesBuffersAlone self (self.setDepthWrite enable) ∧
      { self.setDepthWrite enable with mDepthWrite := self.mDepthWrite } = self ∧
      (self.setDepthWrite enable).getDepthWrite = enable) ∧
    (LeavesBuffersAlone self (self.setStencilWrite enable) ∧
      { self.setStencilWrite enable with mStencilState := self.mStencilState } = self ∧
      (self.setStencilWrite enable).getStencilState.stencilWrite = enable ∧
      (self.setStencilWrite enable).getStencilState.front = self.mStencilState.front ∧
      (self.setStencilWrite enable).getStencilState.back = self.mStencilState.back) ∧
    (LeavesBuffersAlone self (self.setStencilCompareFunction func face) ∧
      { self.setStencilCompareFunction func face with mStencilState := self.mStencilState } = self ∧
      (face.hasFront = true →
        (self.setStencilCompareFunction func face).getStencilState.front.stencilFunc = func) ∧
      (face.hasBack = true →
        (self.setStencilCompareFunction func face).getStencilState.back.stencilFunc = func)) ∧
    (LeavesBuffersAlone self (self.setStencilOpStencilFail op face) ∧
      { self.setStencilOpStencilFail op face with mStencilState := self.mStencilState } = self ∧
      (face.hasFront = true →
        (self.setStencilOpStencilFail op face).getStencilState.front.stencilOpStencilFail = op) ∧
      (face.hasBack = true →
        (self.setStencilOpStencilFail op face).getStencilState.back.stencilOpStencilFail = op)) ∧
    (LeavesBuffersAlone self (self.setStencilOpDepthFail op face) ∧
      { self.setStencilOpDepthFail op face with mStencilState := self.mStencilState } = self ∧
      (face.hasFront = true →
        (self.setStencilOpDepthFail op face).getStencilState.front.stencilOpDepthFail = op) ∧
      (face.hasBack = true →
        (self.setStencilOpDepthFail op face).getStencilState.back.stencilOpDepthFail = op)) ∧
    (LeavesBuffersAlone self (self.setStencilOpDepthStencilPass op face) ∧
      { self.setStencilOpDepthStencilPass op face with mStencilState := self.mStencilState } = self ∧
      (face.hasFront = true →
        (self.setStencilOpDepthStencilPass op face).getStencilState.front.stencilOpDepthStencilPass = op) ∧
      (face.hasBack = true →
        (self.setStencilOpDepthStencilPass op face).getStencilState.back.stencilOpDepthStencilPass = op)) ∧
    (LeavesBuffersAlone self (self.setStencilReferenceValue value face) ∧
      { self.setStencilReferenceValue value face with mStencilState := self.mStencilState } = self ∧
      (face.hasFront = true →
        (self.setStencilReferenceValue value face).getStencilState.front.ref = value) ∧
      (face.hasBack = true →
        (self.setStencilReferenceValue value face).getStencilState.back.ref = value)) ∧
    (LeavesBuffersAlone self (self.setStencilReadMask value face) ∧
      { self.setStencilReadMask value face with mStencilState := self.mStencilState } = self ∧
      (face.hasFront = true →
        (self.setStencilReadMask value face).getStencilState.front.readMask = value) ∧
      (face.hasBack = true →
        (self.setStencilReadMask value face).getStencilState.back.readMask = value)) ∧
    (LeavesBuffersAlone self (self.setStencilWriteMask value face) ∧
      { self.setStencilWriteMask value face with mStencilState := self.mStencilState } = self ∧
      (face.hasFront = true →
        (self.setStencilWriteMask value face).getStencilState.front.writeMask = value) ∧
      (face.hasBack = true →
        (self.setStencilWriteMask value face).getStencilState.back.writeMask = value)) ∧
    (LeavesBuffersAlone self (self.setScissor left bottom width height) ∧
      { self.setScissor left bottom width height with mScissorRect := self.mScissorRect }
        = self ∧
      (self.setScissor left bottom width height).getScissor =
        { left := left, bottom := bottom,
          width := min width INT32_MAX, height := min height INT32_MAX } ∧
      ((width ≤ INT32_MAX ∧ height ≤ INT32_MAX) →
        (self.setScissor left bottom width height).getScissor =
          { left := left, bottom := bottom, width := width, height := height })) ∧
    (LeavesBuffersAlone self self.unsetScissor ∧
      { self.unsetScissor with mScissorRect := self.mScissorRect } = self ∧
      self.unsetScissor.getScissor =
        { left := 0, bottom := 0, width := INT32_MAX, height := INT32_MAX }) ∧
    (LeavesBuffersAlone self (self.setPolygonOffset scale constant) ∧
      { self.setPolygonOffset scale constant with mPolygonOffset := self.mPolygonOffset }
        = self ∧
      (self.setPolygonOffset scale constant).getPolygonOffset =
        { slope := Float32.neg scale, constant := Float32.neg constant }) := by
  refine ⟨⟨leavesBuffersAlone_of_eq _ _ rfl rfl rfl rfl, rfl, rfl⟩,
    ⟨leavesBuffersAlone_of_eq _ _ rfl rfl rfl rfl, rfl, rfl⟩,
    ⟨leavesBuffersAlone_of_eq _ _ rfl rfl rfl rfl, rfl, rfl⟩,
    ⟨leavesBuffersAlone_of_eq _ _ rfl rfl rfl rfl, rfl, rfl, rfl, rfl⟩,
    ?_, ?_, ?_, ?_, ?_, ?_, ?_,
    ⟨leavesBuffersAlone_of_eq _ _ rfl rfl rfl rfl, rfl, rfl, ?_⟩,
    ⟨leavesBuffersAlone_of_eq _ _ rfl rfl rfl rfl, rfl, rfl⟩,
    ⟨leavesBuffersAlone_of_eq _ _ rfl rfl rfl rfl, rfl, rfl⟩⟩
  · refine ⟨leavesBuffersAlone_of_eq _ _ rfl rfl rfl rfl, rfl, ?_, ?_⟩ <;>
      · intro h
        unfold FMaterialInstance.setStencilCompareFunction FMaterialInstance.getStencilState
        cases hb : face.hasBack <;> cases hf : face.hasFront <;> simp_all
  · refine ⟨leavesBuffersAlone_of_eq _ _ rfl rfl rfl rfl, rfl, ?_, ?_⟩ <;>
      · intro h
        unfold FMaterialInstance.setStencilOpStencilFail FMaterialInstance.getStencilState
        cases hb : face.hasBack <;> cases hf : face.hasFront <;> simp_all
  · refine ⟨leavesBuffersAlone_of_eq _ _ rfl rfl rfl rfl, rfl, ?_, ?_⟩ <;>
      · intro h
        unfold FMaterialInstance.setStencilOpDepthFail FMaterialInstance.getStencilState
        cases hb : face.hasBack <;> cases hf : face.hasFront <;> simp_all
  · refine ⟨leavesBuffersAlone_of_eq _ _ rfl rfl rfl rfl, rfl, ?_, ?_⟩ <;>
      · intro h
        unfold FMaterialInstance.setStencilOpDepthStencilPass FMaterialInstance.getStencilState
        cases hb : face.hasBack <;> cases hf : face.hasFront <;> simp_all
  · refine ⟨leavesBuffersAlone_of_eq _ _ rfl rfl rfl rfl, rfl, ?_, ?_⟩ <;>
      · intro h
        unfold FMaterialInstance.setStencilReferenceValue FMaterialInstance.getStencilState
        cases hb : face.hasBack <;> cases hf : face.hasFront <;> simp_all
  · refine ⟨leavesBuffersAlone_of_eq _ _ rfl rfl rfl rfl, rfl, ?_, ?_⟩ <;>
      · intro h
        unfold FMaterialInstance.setStencilReadMask FMaterialInstance.getStencilState
        cases hb : face.hasBack <;> cases hf : face.hasFront <;> simp_all
  · refine ⟨leavesBuffersAlone_of_eq _ _ rfl rfl rfl rfl, rfl, ?_, ?_⟩ <;>
      · intro h
        unfold FMaterialInstance.setStencilWriteMask FMaterialInstance.getStencilState
        cases hb : face.hasBack <;> cases hf : face.hasFront <;> simp_all
  · rintro ⟨hw, hh⟩
    simp [FMaterialInstance.setScissor, FMaterialInstance.getScissor, Nat.min_eq_left hw,
      Nat.min_eq_left hh]

/-- C8 (amended), at a concrete input: setting a scissor of the full `uint32_t` width on a
committed instance stores the width clamped to INT32_MAX and leaves the instance clean, so
the following `commit` does not call `commitSlow`. -/
theorem fixed_function_setters_leave_buffers_alone_witness :
    (committedInstance.setScissor 1 2 4294967295 600).getScissor =
        { left := 1, bottom := 2, width := 2147483647, height := 600 } ∧
    ((committedInstance.setScissor 1 2 4294967295 600).commit sampleCommitSlow []).slowCalls
        = 0 ∧
    (committedInstance.setScissor 1 2 30 600).getScissor =
        { left := 1, bottom := 2, width := 30, height := 600 } :=
  ⟨by decide, by decide,
   (fixed_function_setters_leave_buffers_alone committedInstance CullingMode.NONE true
      SamplerCompareFunc.A StencilOperation.KEEP 0 0 1 2 30 600 0 0).2.2.2.2.2.2.2.2.2.2.2.1.2.2.2
      ⟨by decide, by decide⟩⟩

/-! ### `commit` and `use` on concrete instances -/

/-- C1, at concrete inputs: a clean instance comes back from `commit` unchanged, with no
driver command and no slow-path call; a dirty one takes the slow path once. -/
theorem commit_slow_iff_dirty_witness :
    ((committedInstance.commit sampleCommitSlow []).inst = committedInstance ∧
      (committedInstance.commit sampleCommitSlow []).driver = [] ∧
      (committedInstance.commit sampleCommitSlow []).slowCalls = 0) ∧
    ((sampleInstance.commit sampleCommitSlow []).inst = (sampleCommitSlow sampleInstance []).1 ∧
      (sampleInstance.commit sampleCommitSlow []).driver = [DriverCommand.other 0] ∧
      (sampleInstance.commit sampleCommitSlow []).slowCalls = 1) :=
  ⟨(commit_slow_iff_dirty sampleCommitSlow committedInstance []).1 ⟨rfl, rfl⟩,
   (commit_slow_iff_dirty sampleCommitSlow sampleInstance []).2.1 (Or.inl rfl)⟩

/-- C2, at concrete inputs: before the first commit `use` issues nothing; afterwards it
binds the uniform buffer at 7 and the sampler group at 2. -/
theorem use_binds_iff_handle_set_witness :
    (sampleInstance.use []).2 = [] ∧
    (committedInstance.use []).2 =
      [DriverCommand.bindUniformBuffer 7 (some 11), DriverCommand.bindSamplers 2 (some 12)] :=
  ⟨(use_binds_iff_handle_set sampleInstance []).2.2.2.2.1 ⟨rfl, rfl⟩,
   (use_binds_iff_handle_set committedInstance []).1⟩

/-! ### The binding-point registry -/

/-- C11: the uniform binding points have pairwise distinct values, exactly the numbers 0 to
7, and the sampler binding points pairwise distinct values, exactly 0 to 2; every binding
point is below the declared count of its enumeration (8 and 3); each count is at most the
backend capacity it is statically asserted against, so a binding point is a valid slot
under any capacity that passes the assertion; the PER_MATERIAL_INSTANCE points are 7 and 2,
and every bind command that `use` issues names a slot below the count. -/
theorem binding_points_within_declared_counts :
    (∀ a b : UniformBindingPoints, a.toNat = b.toNat → a = b) ∧
    (∀ n : Nat, (∃ b : UniformBindingPoints, b.toNat = n) ↔ n < 8) ∧
    (∀ a b : SamplerBindingPoints, a.toNat = b.toNat → a = b) ∧
    (∀ n : Nat, (∃ b : SamplerBindingPoints, b.toNat = n) ↔ n < 3) ∧
    (countUniformBindingPoints = 8 ∧ countSamplerBindingPoints = 3) ∧
    (∀ b : UniformBindingPoints, b.toNat < countUniformBindingPoints) ∧
    (∀ b : SamplerBindingPoints, b.toNat < countSamplerBindingPoints) ∧
    (countUniformBindingPoints ≤ CONFIG_UNIFORM_BINDING_COUNT ∧
      countSamplerBindingPoints ≤ CONFIG_SAMPLER_BINDING_COUNT) ∧
    (∀ cap : Nat, countUniformBindingPoints ≤ cap →
      ∀ b : UniformBindingPoints, b.toNat < cap) ∧
    (∀ cap : Nat, countSamplerBindingPoints ≤ cap →
      ∀ b : SamplerBindingPoints, b.toNat < cap) ∧
    (UniformBindingPoints.PER_MATERIAL_INSTANCE.toNat = 7 ∧
      SamplerBindingPoints.PER_MATERIAL_INSTANCE.toNat = 2) ∧
    (∀ (self : FMaterialInstance) (i : Nat) (h : Handle),
      (DriverCommand.bindUniformBuffer i h ∈ (self.use []).2 →
        i < countUniformBindingPoints ∧ i < CONFIG_UNIFORM_BINDING_COUNT) ∧
      (DriverCommand.bindSamplers i h ∈ (self.use []).2 →
        i < countSamplerBindingPoints ∧ i < CONFIG_SAMPLER_BINDING_COUNT)) := by
  have hu : ∀ b : UniformBindingPoints, b.toNat < 8 := by
    intro b; cases b <;> simp [UniformBindingPoints.toNat]
  have hs : ∀ b : SamplerBindingPoints, b.toNat < 3 := by
    intro b; cases b <;> simp [SamplerBindingPoints.toNat]
  refine ⟨?_, ?_, ?_, ?_, ⟨rfl, rfl⟩, hu, hs, ⟨by decide, by decide⟩, ?_, ?_, ⟨rfl, rfl⟩, ?_⟩
  · intro a b h
    cases a <;> cases b <;> simp [UniformBindingPoints.toNat] at h <;> rfl
  · intro n
    constructor
    · rintro ⟨b, rfl⟩; exact hu b
    · intro hn
      have h8 : n = 0 ∨ n = 1 ∨ n = 2 ∨ n = 3 ∨ n = 4 ∨ n = 5 ∨ n = 6 ∨ n = 7 := by omega
      rcases h8 with h | h | h | h | h | h | h | h <;> subst h
      · exact ⟨.PER_VIEW, rfl⟩
      · exact ⟨.PER_RENDERABLE, rfl⟩
      · exact ⟨.PER_RENDERABLE_BONES, rfl⟩
      · exact ⟨.PER_RENDERABLE_MORPHING, rfl⟩
      · exact ⟨.LIGHTS, rfl⟩
      · exact ⟨.SHADOW, rfl⟩
      · exact ⟨.FROXEL_RECORDS, rfl⟩
      · exact ⟨.PER_MATERIAL_INSTANCE, rfl⟩
  · intro a b h
    cases a <;> cases b <;> simp [SamplerBindingPoints.toNat] at h <;> rfl
  · intro n
    constructor
    · rintro ⟨b, rfl⟩; exact hs b
    · intro hn
      have h3 : n = 0 ∨ n = 1 ∨ n = 2 := by omega
      rcases h3 with h | h | h <;> subst h
      · exact ⟨.PER_VIEW, rfl⟩
      · exact ⟨.PER_RENDERABLE_MORPHING, rfl⟩
      · exact ⟨.PER_MATERIAL_INSTANCE, rfl⟩
  · intro cap hcap b
    have := hu b
    simp only [countUniformBindingPoints] at hcap
    omega
  · intro cap hcap b
    have := hs b
    simp only [countSamplerBindingPoints] at hcap
    omega
  · intro self i h
    unfold FMaterialInstance.use Handle.toBool
    simp only [UniformBindingPoints.toNat, SamplerBindingPoints.toNat,
      countUniformBindingPoints, countSamplerBindingPoints, CONFIG_UNIFORM_BINDING_COUNT,
      CONFIG_SAMPLER_BINDING_COUNT]
    cases self.mUbHandle <;> cases self.mSbHandle <;> simp <;> omega

/-- C11, at concrete inputs: under the documented backend capacities 10 and 4, the
per-material-instance points 7 and 2 are valid slots. -/
theorem binding_points_within_declared_counts_witness :
    (countUniformBindingPoints ≤ CONFIG_UNIFORM_BINDING_COUNT ∧
      UniformBindingPoints.PER_MATERIAL_INSTANCE.toNat < CONFIG_UNIFORM_BINDING_COUNT) ∧
    (countSamplerBindingPoints ≤ CONFIG_SAMPLER_BINDING_COUNT ∧
      SamplerBindingPoints.PER_MATERIAL_INSTANCE.toNat < CONFIG_SAMPLER_BINDING_COUNT) :=
  ⟨⟨by decide,
    binding_points_within_declared_counts.2.2.2.2.2.2.2.2.1 CONFIG_UNIFORM_BINDING_COUNT
      (by decide) UniformBindingPoints.PER_MATERIAL_INSTANCE⟩,
   ⟨by decide,
    binding_points_within_declared_counts.2.2.2.2.2.2.2.2.2.1 CONFIG_SAMPLER_BINDING_COUNT
      (by decide) SamplerBindingPoints.PER_MATERIAL_INSTANCE⟩⟩

/-! ### Polygon offset -/

theorem Float32.neg_eq_xor (x : Float32) (hx : x < 2 ^ 32) :
    Float32.neg x = x ^^^ 0x80000000 := by
  unfold Float32.neg
  exact Nat.mod_eq_of_lt (Nat.xor_lt_two_pow hx (by decide))

theorem Float32.neg_lt (x : Float32) : Float32.neg x < 2 ^ 32 := by
  unfold Float32.neg
  exact Nat.mod_lt _ (by decide)

/-- Negating twice gives the value back. -/
theorem Float32.neg_neg (x : Float32) (hx : x < 2 ^ 32) :
    Float32.neg (Float32.neg x) = x := by
  rw [Float32.neg_eq_xor _ (Float32.neg_lt x), Float32.neg_eq_xor x hx, Nat.xor_assoc,
    Nat.xor_self, Nat.xor_zero]

/-- Negation changes every bit pattern: the sign bit differs. -/
theorem Float32.neg_ne (x : Float32) (hx : x < 2 ^ 32) : Float32.neg x ≠ x := by
  rw [Float32.neg_eq_xor x hx]
  intro h
  have h2 : x ^^^ (x ^^^ 0x80000000) = x ^^^ x := by rw [h]
  rw [← Nat.xor_assoc, Nat.xor_self, Nat.zero_xor] at h2
  exact absurd h2 (by decide)

/-- C12, as stated, fails: the setter has no face mask and the instance holds one polygon
offset. Setting (2.0f, 0.5f) and then (4.0f, 0.25f), as one would for the front and then the
back face, leaves the same instance as the second call alone, nothing of the first call
remaining, and the getter reports (-4.0f, -0.25f), not the scale and constant that were
set. -/
theorem polygon_offset_is_single_and_negated :
    ((sampleInstance.setPolygonOffset 0x40000000 0x3f000000).setPolygonOffset
        0x40800000 0x3e800000) = sampleInstance.setPolygonOffset 0x40800000 0x3e800000 ∧
    ((sampleInstance.setPolygonOffset 0x40000000 0x3f000000).setPolygonOffset
        0x40800000 0x3e800000).getPolygonOffset =
      { slope := 0xc0800000, constant := 0xbe800000 } ∧
    ((sampleInstance.setPolygonOffset 0x40000000 0x3f000000).setPolygonOffset
        0x40800000 0x3e800000).getPolygonOffset ≠
      { slope := 0x40800000, constant := 0x3e800000 } := by
  refine ⟨rfl, ?_, ?_⟩ <;> decide

/-- C12 (amended): `setPolygonOffset(scale, constant)` takes no face mask; the instance has
one polygon offset, which the call replaces whatever was set before, leaving every other
member (the per-face stencil records among them) unchanged. `getPolygonOffset` reports the
negated scale as slope and the negated constant: each differs from the value set, and
negating it gives the value set. -/
theorem setPolygonOffset_replaces_single_negated_offset (self : FMaterialInstance)
    (scale constant scale0 constant0 : Float32)
    (hs : scale < 2 ^ 32) (hc : constant < 2 ^ 32) :
    (self.setPolygonOffset scale constant).getPolygonOffset =
        { slope := Float32.neg scale, constant := Float32.neg constant } ∧
    ((self.setPolygonOffset scale constant).getPolygonOffset.slope ≠ scale ∧
      (self.setPolygonOffset scale constant).getPolygonOffset.constant ≠ constant) ∧
    (Float32.neg (self.setPolygonOffset scale constant).getPolygonOffset.slope = scale ∧
      Float32.neg (self.setPolygonOffset scale constant).getPolygonOffset.constant
        = constant) ∧
    (self.setPolygonOffset scale0 constant0).setPolygonOffset scale constant =
        self.setPolygonOffset scale constant ∧
    { self.setPolygonOffset scale constant with mPolygonOffset := self.mPolygonOffset }
        = self ∧
    (self.setPolygonOffset scale constant).mStencilState = self.mStencilState := by
  refine ⟨rfl, ⟨?_, ?_⟩, ⟨?_, ?_⟩, rfl, rfl, rfl⟩
  · exact Float32.neg_ne scale hs
  · exact Float32.neg_ne constant hc
  · exact Float32.neg_neg scale hs
  · exact Float32.neg_neg constant hc

/-- C12 (amended), at a concrete input: after `setPolygonOffset(0.5f, 8.0f)` the getter
reports (-0.5f, -8.0f). -/
theorem setPolygonOffset_replaces_single_negated_offset_witness :
    ((0x3f000000 : Nat) < 2 ^ 32 ∧ (0x41000000 : Nat) < 2 ^ 32) ∧
    (sampleInstance.setPolygonOffset 0x3f000000 0x41000000).getPolygonOffset =
      { slope := Float32.neg 0x3f000000, constant := Float32.neg 0x41000000 } ∧
    (Float32.neg 0x3f000000 = 0xbf000000 ∧ Float32.neg 0x41000000 = 0xc1000000) :=
  ⟨⟨by decide, by decide⟩,
   (setPolygonOffset_replaces_single_negated_offset sampleInstance 0x3f000000 0x41000000 0 0
      (by decide) (by decide)).1,
   ⟨by decide, by decide⟩⟩

/-! ### Scissor -/

/-- Whatever `setScissor` calls came before, `unsetScissor` gives the same instance. -/
theorem FMaterialInstance.unsetScissor_setScissorAll (self : FMaterialInstance)
    (calls : List (Int × Int × Nat × Nat)) :
    (self.setScissorAll calls).unsetScissor = self.unsetScissor := by
  unfold FMaterialInstance.setScissorAll
  induction calls generalizing self with
  | nil => rfl
  | cons c cs ih =>
    rw [List.foldl_cons, ih]
    rfl

/-- C13: `unsetScissor` is total and has no failing path. On an instance whose scissor is
the initial rectangle it changes nothing. `setScissor` stores width and height clamped to at
most INT32_MAX, and after any sequence of `setScissor` calls `unsetScissor` restores the
initial rectangle (left 0, bottom 0, width INT32_MAX, height INT32_MAX) and leaves exactly
the instance that `unsetScissor` alone would; only the scissor member is written; applying
`unsetScissor` twice equals applying it once. -/
theorem unsetScissor_restores_initial_rectangle (self : FMaterialInstance)
    (calls : List (Int × Int × Nat × Nat)) (left bottom : Int) (width height : Nat) :
    (self.mScissorRect = initialScissorRect → self.unsetScissor = self) ∧
    ((self.setScissor left bottom width height).getScissor.width = min width INT32_MAX ∧
      (self.setScissor left bottom width height).getScissor.height = min height INT32_MAX ∧
      (self.setScissor left bottom width height).getScissor.width ≤ INT32_MAX ∧
      (self.setScissor left bottom width height).getScissor.height ≤ INT32_MAX) ∧
    (self.setScissorAll calls).unsetScissor.getScissor = initialScissorRect ∧
    (initialScissorRect =
      { left := 0, bottom := 0, width := 2147483647, height := 2147483647 }) ∧
    (self.setScissorAll calls).unsetScissor = self.unsetScissor ∧
    { self.unsetScissor with mScissorRect := self.mScissorRect } = self ∧
    self.unsetScissor.unsetScissor = self.unsetScissor := by
  refine ⟨?_, ⟨rfl, rfl, ?_, ?_⟩, ?_, rfl, ?_, rfl, rfl⟩
  · intro h
    unfold FMaterialInstance.unsetScissor
    have h2 : ({ left := 0, bottom := 0, width := INT32_MAX, height := INT32_MAX } : Viewport)
        = self.mScissorRect := h.symm
    rw [h2]
  · exact Nat.min_le_right _ _
  · exact Nat.min_le_right _ _
  · rw [FMaterialInstance.unsetScissor_setScissorAll]
    rfl
  · exact FMaterialInstance.unsetScissor_setScissorAll self calls

/-- C13, at concrete inputs: a fresh instance is unchanged by `unsetScissor`, and after two
`setScissor` calls, one wider than INT32_MAX, `unsetScissor` gives the fresh instance
again. -/
theorem unsetScissor_restores_initial_rectangle_witness :
    sampleInstance.mScissorRect = initialScissorRect ∧
    sampleInstance.unsetScissor = sampleInstance ∧
    (sampleInstance.setScissorAll [(10, 20, 4294967295, 600), (-5, 0, 64, 64)]).getScissor =
      { left := -5, bottom := 0, width := 64, height := 64 } ∧
    (sampleInstance.setScissorAll
      [(10, 20, 4294967295, 600), (-5, 0, 64, 64)]).unsetScissor = sampleInstance :=
  ⟨rfl,
   (unsetScissor_restores_initial_rectangle sampleInstance [] 0 0 0 0).1 rfl,
   by decide, by decide⟩

end filament
